import Mathlib

/-!
# oVirt provider: VM lifecycle

A shallow embedding of `ovirt/resource_ovirt_vm.go`, `ovirt/resource_vm.go` and
`ovirt/resource_disk.go`.

Conventions of the embedding.

* The remote platform is a state machine: every SDK call the code sends is a handler
  `σ → request → response × σ`, and every call is appended to a request log.
* An attribute that the code reads with a `Must…` accessor is a plain field of the entity; an
  attribute read with the two-valued accessor (`v.Name()`, `v.Ip()`, …) is an `Option`.
* `resource.Retry(timeout, f)` belongs to the Terraform helper library. It runs `f` at once and
  again for as long as `f` reports a retryable error and the timeout admits another attempt; the
  number of further attempts the timeout admits is the parameter `retries`.
* `d.Get("network_interface.<i>.<field>")` reads the field of the `i`-th interface of the
  collection, and `Set.List()` yields the collection in the order held by the resource data.
-/

namespace Ovirt

/-! ## Errors -/

/-- Error values: the SDK's `NotFoundError` is told apart from every other error. -/
inductive Error where
  | notFound (msg : String)
  | other (msg : String)
  deriving DecidableEq, Repr

/-- The text of an error, as `%v` prints it. -/
def Error.msg : Error → String
  | .notFound m => m
  | .other m => m

/-! ## Remote entities -/

/-- An embedded entity reference: what `MustCluster()`, `MustNetwork()`, `MustTemplate()` give. -/
structure Ref where
  id : String
  href : String
  deriving DecidableEq, Repr

structure Disk where
  id : String
  status : String
  deriving DecidableEq, Repr

structure DiskAttachment where
  disk : Disk
  interface : String
  bootable : Bool
  active : Bool
  logicalName : String
  passDiscard : Bool
  readOnly : Bool
  usesScsiReservation : Bool
  deriving DecidableEq, Repr

structure Ip where
  address : Option String
  netmask : Option String
  gateway : Option String
  deriving DecidableEq, Repr

structure NicConfiguration where
  name : Option String
  ip : Option Ip
  bootProtocol : String
  onBoot : Bool
  deriving DecidableEq, Repr

structure Initialization where
  authorizedSshKeys : String
  nicConfigurations : Option (List NicConfiguration)
  deriving DecidableEq, Repr

structure CpuTopology where
  cores : Int
  sockets : Int
  threads : Int
  deriving DecidableEq, Repr

/-- A virtual machine as the platform reports it. -/
structure Vm where
  id : String
  name : String
  status : String
  cluster : Ref
  template : Ref
  cpu : CpuTopology
  initialization : Initialization
  diskAttachments : Option (List DiskAttachment)
  deriving DecidableEq, Repr

/-- The virtual machine that `resourceOvirtVMCreate` builds for the add request. -/
structure VmSpec where
  name : String
  clusterId : String
  templateName : String
  cpu : CpuTopology
  initialization : Initialization
  deriving DecidableEq, Repr

structure VnicProfile where
  id : String
  name : String
  network : Ref
  deriving DecidableEq, Repr

structure Network where
  dataCenterId : String
  deriving DecidableEq, Repr

structure Cluster where
  dataCenterId : String
  deriving DecidableEq, Repr

structure Template where
  name : String
  deriving DecidableEq, Repr

/-- What `conn.FollowLink` may hand back behind its `interface{}`. -/
inductive Entity where
  | network (n : Network)
  | cluster (c : Cluster)
  | template (t : Template)
  deriving DecidableEq, Repr

/-- The NIC that `resourceOvirtVMCreate` builds for the NIC add request. -/
structure Nic where
  name : String
  description : String
  vnicProfileId : String
  deriving DecidableEq, Repr

def VMSTATUS_DOWN : String := "down"

def DISKSTATUS_LOCKED : String := "locked"

/-! ## Requests and the remote -/

/-- The SDK calls that the code sends. -/
inductive Request where
  | vmAdd (vm : VmSpec)
  | vmGet (id : String)
  | vmStart (id : String)
  | vmShutdown (id : String)
  | vmRemove (id : String) (detachOnly : Bool)
  | diskGet (id : String)
  | diskAttachmentAdd (vmId : String) (a : DiskAttachment)
  | vnicProfilesList
  | followLink (r : Ref)
  | nicAdd (vmId : String) (nic : Nic)
  deriving DecidableEq, Repr

/-- The requests that change the remote platform. -/
def Request.isMutating : Request → Bool
  | .vmAdd _ => true
  | .vmStart _ => true
  | .vmShutdown _ => true
  | .vmRemove _ _ => true
  | .diskAttachmentAdd _ _ => true
  | .nicAdd _ _ => true
  | _ => false

def Request.isVmRemove : Request → Bool
  | .vmRemove _ _ => true
  | _ => false

def Request.isVmShutdown : Request → Bool
  | .vmShutdown _ => true
  | _ => false

def Request.isDiskAttachmentAdd : Request → Bool
  | .diskAttachmentAdd _ _ => true
  | _ => false

/-- The remote platform: one handler per SDK call, over a state `σ` of its own. -/
structure Remote (σ : Type) where
  vmAdd : σ → VmSpec → Except Error (Option Vm) × σ
  vmGet : σ → String → Except Error (Option Vm) × σ
  vmStart : σ → String → Option Error × σ
  vmShutdown : σ → String → Option Error × σ
  vmRemove : σ → String → Bool → Option Error × σ
  diskGet : σ → String → Except Error Disk × σ
  diskAttachmentAdd : σ → String → DiskAttachment → Option Error × σ
  vnicProfilesList : σ → List VnicProfile × σ
  followLink : σ → Ref → Option Entity × σ
  nicAdd : σ → String → Nic → Option Error × σ

/-- The remote's state together with the log of the requests sent so far. -/
structure World (σ : Type) where
  st : σ
  log : List Request

variable {σ : Type}

def World.vmAdd (R : Remote σ) (w : World σ) (vm : VmSpec) : Except Error (Option Vm) × World σ :=
  ((R.vmAdd w.st vm).1, ⟨(R.vmAdd w.st vm).2, w.log ++ [.vmAdd vm]⟩)

def World.vmGet (R : Remote σ) (w : World σ) (id : String) : Except Error (Option Vm) × World σ :=
  ((R.vmGet w.st id).1, ⟨(R.vmGet w.st id).2, w.log ++ [.vmGet id]⟩)

def World.vmStart (R : Remote σ) (w : World σ) (id : String) : Option Error × World σ :=
  ((R.vmStart w.st id).1, ⟨(R.vmStart w.st id).2, w.log ++ [.vmStart id]⟩)

def World.vmShutdown (R : Remote σ) (w : World σ) (id : String) : Option Error × World σ :=
  ((R.vmShutdown w.st id).1, ⟨(R.vmShutdown w.st id).2, w.log ++ [.vmShutdown id]⟩)

def World.vmRemove (R : Remote σ) (w : World σ) (id : String) (detachOnly : Bool) :
    Option Error × World σ :=
  ((R.vmRemove w.st id detachOnly).1,
    ⟨(R.vmRemove w.st id detachOnly).2, w.log ++ [.vmRemove id detachOnly]⟩)

def World.diskGet (R : Remote σ) (w : World σ) (id : String) : Except Error Disk × World σ :=
  ((R.diskGet w.st id).1, ⟨(R.diskGet w.st id).2, w.log ++ [.diskGet id]⟩)

def World.diskAttachmentAdd (R : Remote σ) (w : World σ) (vmId : String) (a : DiskAttachment) :
    Option Error × World σ :=
  ((R.diskAttachmentAdd w.st vmId a).1,
    ⟨(R.diskAttachmentAdd w.st vmId a).2, w.log ++ [.diskAttachmentAdd vmId a]⟩)

def World.vnicProfilesList (R : Remote σ) (w : World σ) : List VnicProfile × World σ :=
  ((R.vnicProfilesList w.st).1, ⟨(R.vnicProfilesList w.st).2, w.log ++ [.vnicProfilesList]⟩)

def World.followLink (R : Remote σ) (w : World σ) (r : Ref) : Option Entity × World σ :=
  ((R.followLink w.st r).1, ⟨(R.followLink w.st r).2, w.log ++ [.followLink r]⟩)

def World.nicAdd (R : Remote σ) (w : World σ) (vmId : String) (nic : Nic) :
    Option Error × World σ :=
  ((R.nicAdd w.st vmId nic).1, ⟨(R.nicAdd w.st vmId nic).2, w.log ++ [.nicAdd vmId nic]⟩)

/-- The helper `resource.Retry`: `f` answers `none` for `nil` and `some e` for
`resource.RetryableError(e)`, the only retry error the code builds. `f` runs once, and again while
it fails and `retries` further attempts remain; when they are used up the last error is returned. -/
def Retry {S : Type} : Nat → (S → Option Error × S) → S → Option Error × S
  | 0, f, s => f s
  | n + 1, f, s =>
    match f s with
    | (none, s') => (none, s')
    | (some _, s') => Retry n f s'

/-! ## Resource data -/

/-- A value stored in a flattened attribute map. -/
inductive Value where
  | str (s : String)
  | bool (b : Bool)
  deriving DecidableEq, Repr

/-- A Go `map[string]interface{}` that is not nil: its keys with their values. -/
abbrev Attrs := List (String × Value)

/-- Assignment `attrs[k] = v` on a Go map. -/
def Attrs.set (m : Attrs) (k : String) (v : Value) : Attrs :=
  m.filter (fun p => p.1 != k) ++ [(k, v)]

/-- Lookup `attrs[k]` on a Go map: `none` when the key is absent. -/
def Attrs.get? (m : Attrs) (k : String) : Option Value :=
  m.lookup k

structure DiskAttachmentSpec where
  disk_id : String
  active : Bool
  bootable : Bool
  interface : String
  logical_name : String
  pass_discard : Bool
  read_only : Bool
  use_scsi_reservation : Bool
  deriving DecidableEq, Repr

structure NetworkInterfaceSpec where
  label : String
  network : String
  boot_proto : String
  ip_address : String
  subnet_mask : String
  gateway : String
  on_boot : Bool
  deriving DecidableEq, Repr

/-- The `schema.ResourceData` of an `ovirt_vm` resource. The last two fields hold the value last
passed to `d.Set` for the two collections, a slice of maps whose nil elements are `none`. -/
structure ResourceData where
  id : String
  name : String
  cluster_id : String
  template : String
  cores : Int
  sockets : Int
  threads : Int
  authorized_ssh_key : String
  attached_disk : List DiskAttachmentSpec
  network_interface : List NetworkInterfaceSpec
  set_attached_disk : Option (List (Option Attrs))
  set_network_interface : Option (List (Option Attrs))
  deriving DecidableEq, Repr

/-! ## Delete -/

/-- The function that `resourceOvirtVMDelete` hands to `resource.Retry`: one attempt of
check, shutdown, remove. `vmId` is the id the VM service was bound to before the retry loop. -/
def resourceOvirtVMDelete_attempt (R : Remote σ) (vmId : String)
    (s : ResourceData × World σ) : Option Error × (ResourceData × World σ) :=
  let d := s.1
  let w := s.2
  match w.vmGet R vmId with
  | (.error (.notFound _), w1) => (none, (d, w1))
  | (.error err, w1) => (some err, (d, w1))
  | (.ok none, w1) => (none, ({ d with id := "" }, w1))
  | (.ok (some vm), w1) =>
    if vm.status ≠ VMSTATUS_DOWN then
      match w1.vmShutdown R vmId with
      | (some err, w2) =>
        (some (.other ("Stop instance timeout and got an error: " ++ err.msg)), (d, w2))
      | (none, w2) =>
        match w2.vmRemove R vmId true with
        | (some err, w3) =>
          (some (.other ("Delete instalce timeout and got an error: " ++ err.msg)), (d, w3))
        | (none, w3) => (none, (d, w3))
    else
      match w1.vmRemove R vmId true with
      | (some err, w3) =>
        (some (.other ("Delete instalce timeout and got an error: " ++ err.msg)), (d, w3))
      | (none, w3) => (none, (d, w3))

/-- Delete: the attempt above, retried as a unit within the 3-minute bound. -/
def resourceOvirtVMDelete (R : Remote σ) (retries : Nat) (d : ResourceData) (w : World σ) :
    Option Error × (ResourceData × World σ) :=
  Retry retries (resourceOvirtVMDelete_attempt R d.id) (d, w)

/-! ## Disk attachment -/

/-- The function that `buildOvirtVMDiskAttachment` hands to `resource.Retry`: one fetch of the
disk. The first component of the state is the variable `disk`, nil before the first fetch. -/
def buildOvirtVMDiskAttachment_fetch (R : Remote σ) (diskId : String)
    (s : Option Disk × World σ) : Option Error × (Option Disk × World σ) :=
  match s.2.diskGet R diskId with
  | (.error err, w1) => (some err, (s.1, w1))
  | (.ok disk, w1) =>
    if disk.status = DISKSTATUS_LOCKED then
      (some (.other "disk is locked, wait for next check"), (some disk, w1))
    else
      (none, (some disk, w1))

/-- The attachment that `buildOvirtVMDiskAttachment` builds from one element of `attached_disk`
and the fetched disk. -/
def buildOvirtVMDiskAttachment_attachment (disk : Disk) (a : DiskAttachmentSpec) :
    DiskAttachment :=
  { disk := disk
    interface := a.interface
    bootable := a.bootable
    active := a.active
    logicalName := a.logical_name
    passDiscard := a.pass_discard
    readOnly := a.read_only
    usesScsiReservation := a.use_scsi_reservation }

/-- The body of the loop of `buildOvirtVMDiskAttachment` for one element: wait out the lock within
the 30-second bound, then attach. The branch with a nil disk after a successful wait cannot be
taken (`buildOvirtVMDiskAttachment_fetch_disk` below). -/
def buildOvirtVMDiskAttachment_one (R : Remote σ) (retries : Nat) (vmID : String)
    (a : DiskAttachmentSpec) (w : World σ) : Option Error × World σ :=
  match Retry retries (buildOvirtVMDiskAttachment_fetch R a.disk_id) (none, w) with
  | (some err, (_, w1)) => (some err, w1)
  | (none, (none, w1)) => (none, w1)
  | (none, (some disk, w1)) =>
    w1.diskAttachmentAdd R vmID (buildOvirtVMDiskAttachment_attachment disk a)

/-- The loop of `buildOvirtVMDiskAttachment` over the attachment set: the first error ends it. -/
def buildOvirtVMDiskAttachment_loop (R : Remote σ) (retries : Nat) (vmID : String) :
    List DiskAttachmentSpec → World σ → Option Error × World σ
  | [], w => (none, w)
  | a :: rest, w =>
    match buildOvirtVMDiskAttachment_one R retries vmID a w with
    | (some err, w1) => (some err, w1)
    | (none, w1) => buildOvirtVMDiskAttachment_loop R retries vmID rest w1

/-- Attach every element of `attached_disk` to the VM, in the order of the set's list. -/
def buildOvirtVMDiskAttachment (R : Remote σ) (retries : Nat) (vmID : String)
    (d : ResourceData) (w : World σ) : Option Error × World σ :=
  buildOvirtVMDiskAttachment_loop R retries vmID d.attached_disk w

/-! ## Flattening -/

/-- The map `attrs` that `flattenOvirtVMDiskAttachment` fills for one disk attachment. -/
def flattenOvirtVMDiskAttachment_attrs (v : DiskAttachment) : Attrs :=
  let attrs : Attrs := []
  let attrs := attrs.set "disk_id" (.str v.disk.id)
  let attrs := attrs.set "active" (.bool v.active)
  let attrs := attrs.set "bootable" (.bool v.bootable)
  let attrs := attrs.set "interface" (.str v.interface)
  let attrs := attrs.set "logical_name" (.str v.logicalName)
  let attrs := attrs.set "pass_discard" (.bool v.passDiscard)
  let attrs := attrs.set "read_only" (.bool v.readOnly)
  attrs.set "use_scsi_reservation" (.bool v.usesScsiReservation)

/-- The slice starts as `make([]map[string]interface{}, len(configured))`, that is
`len(configured)` nil maps, and every loop iteration appends one map to it. -/
def flattenOvirtVMDiskAttachment (configured : List DiskAttachment) : List (Option Attrs) :=
  configured.foldl (fun diskAttachments v =>
      diskAttachments ++ [some (flattenOvirtVMDiskAttachment_attrs v)])
    (List.replicate configured.length none)

/-- The map `attrs` that `flattenOvirtVMNetworkInterface` fills for one NIC configuration. -/
def flattenOvirtVMNetworkInterface_attrs (v : NicConfiguration) : Attrs :=
  let attrs : Attrs := []
  let attrs := match v.name with
    | some name => attrs.set "label" (.str name)
    | none => attrs
  let attrs := attrs.set "on_boot" (.bool v.onBoot)
  let attrs := attrs.set "boot_proto" (.str v.bootProtocol)
  match v.ip with
  | some ipAttrs =>
    let attrs := match ipAttrs.address with
      | some ipAddr => attrs.set "ip_address" (.str ipAddr)
      | none => attrs
    let attrs := match ipAttrs.netmask with
      | some netmask => attrs.set "subnet_mask" (.str netmask)
      | none => attrs
    match ipAttrs.gateway with
    | some gateway => attrs.set "gateway" (.str gateway)
    | none => attrs
  | none => attrs

/-- The slice starts as `len(configured)` nil maps and every loop iteration appends one map. -/
def flattenOvirtVMNetworkInterface (configured : List NicConfiguration) : List (Option Attrs) :=
  configured.foldl (fun nicConfigs v =>
      nicConfigs ++ [some (flattenOvirtVMNetworkInterface_attrs v)])
    (List.replicate configured.length none)

/-! ## Read -/

/-- Read: fetch the VM and write what it reports into the resource data; a VM that is not found
clears the id and is no error. -/
def resourceOvirtVMRead (R : Remote σ) (d : ResourceData) (w : World σ) :
    Option Error × (ResourceData × World σ) :=
  match w.vmGet R d.id with
  | (.error (.notFound _), w1) => (none, ({ d with id := "" }, w1))
  | (.error err, w1) => (some err, (d, w1))
  | (.ok none, w1) => (none, ({ d with id := "" }, w1))
  | (.ok (some vm), w1) =>
    let d := { d with
      name := vm.name
      cores := vm.cpu.cores
      sockets := vm.cpu.sockets
      threads := vm.cpu.threads
      authorized_ssh_key := vm.initialization.authorizedSshKeys
      cluster_id := vm.cluster.id }
    let template := w1.followLink R vm.template
    let d := match template.1 with
      | some (.template t) => { d with template := t.name }
      | _ => d
    let d := match vm.diskAttachments with
      | some diskAttachments =>
        { d with set_attached_disk := some (flattenOvirtVMDiskAttachment diskAttachments) }
      | none => d
    let d := match vm.initialization.nicConfigurations with
      | some nicConfigs =>
        { d with set_network_interface := some (flattenOvirtVMNetworkInterface nicConfigs) }
      | none => d
    (none, (d, template.2))

/-! ## Create -/

/-- The NIC configuration that `resourceOvirtVMCreate` puts into the initialization block for one
element of `network_interface`. -/
def resourceOvirtVMCreate_nicConfiguration (n : NetworkInterfaceSpec) : NicConfiguration :=
  { name := some n.label
    ip := some
      { address := some n.ip_address, netmask := some n.subnet_mask, gateway := some n.gateway }
    bootProtocol := n.boot_proto
    onBoot := n.on_boot }

/-- The virtual machine of the add request. -/
def resourceOvirtVMCreate_vm (d : ResourceData) : VmSpec :=
  { name := d.name
    clusterId := d.cluster_id
    templateName := d.template
    cpu := { cores := d.cores, sockets := d.sockets, threads := d.threads }
    initialization :=
      { authorizedSshKeys := d.authorized_ssh_key
        nicConfigurations := some (d.network_interface.map resourceOvirtVMCreate_nicConfiguration) } }

/-- The loop over the vNIC profiles in `resourceOvirtVMCreate`. `dc` holds the variables `pfDcID`
and `newVMDcID`, declared outside the loop: a link that does not resolve to a network (a cluster)
leaves the value of the earlier iteration in place. The result is `profileID`, empty unless the
loop breaks at a profile. -/
def resourceOvirtVMCreate_findProfile (R : Remote σ) (cluster : Ref) (network : String) :
    List VnicProfile → String × String → World σ → String × World σ
  | [], _, w => ("", w)
  | pf :: rest, dc, w =>
    let pfNetwork := w.followLink R pf.network
    let newVMCluster := pfNetwork.2.followLink R cluster
    let pfDcID := match pfNetwork.1 with
      | some (.network n) => n.dataCenterId
      | _ => dc.1
    let newVMDcID := match newVMCluster.1 with
      | some (.cluster c) => c.dataCenterId
      | _ => dc.2
    if pfDcID = newVMDcID ∧ pf.name = network then
      (pf.id, newVMCluster.2)
    else
      resourceOvirtVMCreate_findProfile R cluster network rest (pfDcID, newVMDcID) newVMCluster.2

/-- The NIC of the `i`-th NIC add request. -/
def resourceOvirtVMCreate_nic (i : Nat) (profileID : String) : Nic :=
  { name := "nic" ++ toString (i + 1)
    description := "My network interface card #" ++ toString (i + 1)
    vnicProfileId := profileID }

/-- One iteration of the loop over the network interfaces: list the profiles, pick one, add the
NIC. Every error of these requests is discarded by the code. -/
def resourceOvirtVMCreate_nicStep (R : Remote σ) (newVM : Vm) (i : Nat)
    (n : NetworkInterfaceSpec) (w : World σ) : World σ :=
  let pfSlice := w.vnicProfilesList R
  let found := resourceOvirtVMCreate_findProfile R newVM.cluster n.network pfSlice.1 ("", "")
    pfSlice.2
  (found.2.nicAdd R newVM.id (resourceOvirtVMCreate_nic i found.1)).2

/-- The loop over the network interfaces, from index `i` on. -/
def resourceOvirtVMCreate_nics (R : Remote σ) (newVM : Vm) :
    Nat → List NetworkInterfaceSpec → World σ → World σ
  | _, [], w => w
  | i, n :: rest, w =>
    resourceOvirtVMCreate_nics R newVM (i + 1) rest (resourceOvirtVMCreate_nicStep R newVM i n w)

/-- Create: add the VM, attach the disks, add the NICs, start, read back. The `Build` calls of the
SDK builders report an error only for a builder that already carries one, which none of these
does, so their error branches are left out. -/
def resourceOvirtVMCreate (R : Remote σ) (retries : Nat) (d : ResourceData) (w : World σ) :
    Option Error × (ResourceData × World σ) :=
  match w.vmAdd R (resourceOvirtVMCreate_vm d) with
  | (.error err, w1) => (some err, (d, w1))
  | (.ok none, w1) => (none, ({ d with id := "" }, w1))
  | (.ok (some newVM), w1) =>
    let d := { d with id := newVM.id }
    match buildOvirtVMDiskAttachment R retries newVM.id d w1 with
    | (some err, w2) => (some err, (d, w2))
    | (none, w2) =>
      let w3 := resourceOvirtVMCreate_nics R newVM 0 d.network_interface w2
      match w3.vmStart R d.id with
      | (some err, w4) => (some err, (d, w4))
      | (none, w4) => resourceOvirtVMRead R d w4

/-! ## The legacy resource (`resource_vm.go`, over the `ovirtapi` client) -/

structure LegacyIP where
  address : String
  netmask : String
  gateway : String
  deriving DecidableEq, Repr

structure LegacyNICConfiguration where
  ip : LegacyIP
  bootProtocol : String
  onBoot : String
  name : String
  deriving DecidableEq, Repr

/-- The `ovirtapi.VM` object: `Save` and `Update` overwrite it with what the platform reports. -/
structure LegacyVM where
  id : String
  name : String
  status : String
  cluster : String
  template : String
  cpu : CpuTopology
  authorizedSSHKeys : String
  nicConfigurations : List LegacyNICConfiguration
  deriving DecidableEq, Repr

/-- The `ovirtapi.Disk` object. Every field but the id starts at Go's zero value; the three flags
travel as strings, and `storageDomains` is the pointer to the list of storage-domain links, here
the list of their ids. -/
structure LegacyDisk where
  id : String
  name : String := ""
  provisionedSize : Int := 0
  format : String := ""
  storageDomains : Option (List String) := none
  bootable : String := ""
  shareable : String := ""
  sparse : String := ""
  deriving DecidableEq, Repr

/-- The `ovirtapi.DiskAttachment` of the legacy resource: its flags travel as strings. -/
structure LegacyDiskAttachment where
  disk : LegacyDisk
  active : String
  bootable : String
  interface : String
  logicalName : String
  passDiscard : String
  readOnly : String
  usesSCSIReservation : String
  deriving DecidableEq, Repr

/-- The client calls that the legacy create sends. -/
inductive LegacyRequest where
  | save (vm : LegacyVM)
  | update (vmId : String)
  | getDisk (id : String)
  | addLinkObject (vmId : String) (link : String) (a : LegacyDiskAttachment)
  | start (vmId : String)
  | delete (vmId : String)
  deriving DecidableEq, Repr

def LegacyRequest.isDelete : LegacyRequest → Bool
  | .delete _ => true
  | _ => false

/-- The remote platform as the legacy client reaches it. `update` answers `none` when the refresh
fails: the code drops that error and the object stays as it was. -/
structure LegacyRemote (σ : Type) where
  save : σ → LegacyVM → Except Error LegacyVM × σ
  update : σ → LegacyVM → Option LegacyVM × σ
  getDisk : σ → String → Except Error LegacyDisk × σ
  addLinkObject : σ → String → String → LegacyDiskAttachment → (String × Option Error) × σ
  start : σ → String → Option Error × σ
  delete : σ → String → Option Error × σ

structure LegacyWorld (σ : Type) where
  st : σ
  log : List LegacyRequest

def LegacyWorld.save (R : LegacyRemote σ) (w : LegacyWorld σ) (vm : LegacyVM) :
    Except Error LegacyVM × LegacyWorld σ :=
  ((R.save w.st vm).1, ⟨(R.save w.st vm).2, w.log ++ [.save vm]⟩)

def LegacyWorld.update (R : LegacyRemote σ) (w : LegacyWorld σ) (vm : LegacyVM) :
    Option LegacyVM × LegacyWorld σ :=
  ((R.update w.st vm).1, ⟨(R.update w.st vm).2, w.log ++ [.update vm.id]⟩)

def LegacyWorld.getDisk (R : LegacyRemote σ) (w : LegacyWorld σ) (id : String) :
    Except Error LegacyDisk × LegacyWorld σ :=
  ((R.getDisk w.st id).1, ⟨(R.getDisk w.st id).2, w.log ++ [.getDisk id]⟩)

def LegacyWorld.addLinkObject (R : LegacyRemote σ) (w : LegacyWorld σ) (vmId link : String)
    (a : LegacyDiskAttachment) : (String × Option Error) × LegacyWorld σ :=
  ((R.addLinkObject w.st vmId link a).1,
    ⟨(R.addLinkObject w.st vmId link a).2, w.log ++ [.addLinkObject vmId link a]⟩)

def LegacyWorld.start (R : LegacyRemote σ) (w : LegacyWorld σ) (vmId : String) :
    Option Error × LegacyWorld σ :=
  ((R.start w.st vmId).1, ⟨(R.start w.st vmId).2, w.log ++ [.start vmId]⟩)

def LegacyWorld.delete (R : LegacyRemote σ) (w : LegacyWorld σ) (vmId : String) :
    Option Error × LegacyWorld σ :=
  ((R.delete w.st vmId).1, ⟨(R.delete w.st vmId).2, w.log ++ [.delete vmId]⟩)

/-- The `schema.ResourceData` of the legacy `ovirt_vm` resource. -/
structure LegacyResourceData where
  id : String
  name : String
  cluster : String
  template : String
  cores : Int
  sockets : Int
  threads : Int
  authorized_ssh_key : String
  network_interface : List NetworkInterfaceSpec
  attached_disks : List DiskAttachmentSpec
  connInfoHost : Option String
  deriving DecidableEq, Repr

/-- How a Go function ends: `return nil`, `return err`, or a run-time panic. -/
inductive Outcome where
  | ok
  | error (e : Error)
  | panic (msg : String)
  deriving DecidableEq, Repr

/-- Go's `strconv.FormatBool`. -/
def formatBool (b : Bool) : String :=
  if b then "true" else "false"

def resourceVMCreate_nicConfiguration (n : NetworkInterfaceSpec) : LegacyNICConfiguration :=
  { ip := { address := n.ip_address, netmask := n.subnet_mask, gateway := n.gateway }
    bootProtocol := n.boot_proto
    onBoot := formatBool n.on_boot
    name := n.label }

/-- The object `newVM` as `resourceVMCreate` fills it before `Save`. -/
def resourceVMCreate_vm (d : LegacyResourceData) : LegacyVM :=
  { id := ""
    name := d.name
    status := ""
    cluster := d.cluster
    template := d.template
    cpu := { cores := d.cores, sockets := d.sockets, threads := d.threads }
    authorizedSSHKeys := d.authorized_ssh_key
    nicConfigurations := d.network_interface.map resourceVMCreate_nicConfiguration }

/-- The loop `for newVM.Status != "down" { time.Sleep(time.Second); newVM.Update() }`, with one
unit of fuel per iteration; `none` when the fuel runs out before the status is "down". -/
def resourceVMCreate_waitDown (R : LegacyRemote σ) :
    Nat → LegacyVM → LegacyWorld σ → Option (LegacyVM × LegacyWorld σ)
  | 0, newVM, w =>
    if newVM.status ≠ "down" then none else some (newVM, w)
  | fuel + 1, newVM, w =>
    if newVM.status ≠ "down" then
      let r := w.update R newVM
      resourceVMCreate_waitDown R fuel (r.1.getD newVM) r.2
    else
      some (newVM, w)

def resourceVMCreate_attachment (disk : LegacyDisk) (a : DiskAttachmentSpec) :
    LegacyDiskAttachment :=
  { disk := disk
    active := formatBool a.active
    bootable := formatBool a.bootable
    interface := a.interface
    logicalName := a.logical_name
    passDiscard := formatBool a.pass_discard
    readOnly := formatBool a.read_only
    usesSCSIReservation := formatBool a.use_scsi_reservation }

/-- The body of the loop over `attached_disks` in `resourceVMCreate`; `.ok` stands for reaching
the end of the body. After `AddLinkObject` the body evaluates `v.(*schema.ResourceData)` on the
element `v`, which the line `attachment := v.(map[string]interface{})` has shown to be a map: the
type assertion panics, before the error of `AddLinkObject` is looked at. -/
def resourceVMCreate_attachOne (R : LegacyRemote σ) (newVM : LegacyVM) (a : DiskAttachmentSpec)
    (w : LegacyWorld σ) : Outcome × LegacyWorld σ :=
  match w.getDisk R a.disk_id with
  | (.error err, w1) => (.error err, w1)
  | (.ok disk, w1) =>
    let r := w1.addLinkObject R newVM.id "diskattachments" (resourceVMCreate_attachment disk a)
    (.panic "interface conversion: interface is map[string]interface, not *schema.ResourceData",
      r.2)

def resourceVMCreate_attachLoop (R : LegacyRemote σ) (newVM : LegacyVM) :
    List DiskAttachmentSpec → LegacyWorld σ → Outcome × LegacyWorld σ
  | [], w => (.ok, w)
  | a :: rest, w =>
    match resourceVMCreate_attachOne R newVM a w with
    | (.ok, w1) => resourceVMCreate_attachLoop R newVM rest w1
    | r => r

/-- The call `d.SetConnInfo` in the loop over the network interfaces: the address of the first
interface becomes the connection host. -/
def resourceVMCreate_setConnInfo (d : LegacyResourceData) : LegacyResourceData :=
  { d with connInfoHost :=
    match d.network_interface with
    | [] => d.connInfoHost
    | n :: _ => some n.ip_address }

/-- The legacy create; `none` when `fuel` does not cover the wait for status "down". -/
def resourceVMCreate (R : LegacyRemote σ) (fuel : Nat) (d : LegacyResourceData)
    (w : LegacyWorld σ) : Option (Outcome × (LegacyResourceData × LegacyWorld σ)) :=
  let d := resourceVMCreate_setConnInfo d
  match w.save R (resourceVMCreate_vm d) with
  | (.error err, w1) => some (.error err, (d, w1))
  | (.ok newVM, w1) =>
    let d := { d with id := newVM.id }
    match resourceVMCreate_waitDown R fuel newVM w1 with
    | none => none
    | some (newVM, w2) =>
      match resourceVMCreate_attachLoop R newVM d.attached_disks w2 with
      | (.ok, w3) =>
        match w3.start R newVM.id with
        | (some err, w4) => some (.error err, (d, (w4.delete R newVM.id).2))
        | (none, w4) => some (.ok, (d, w4))
      | (r, w3) => some (r, (d, w3))

/-! ## A fake remote -/

/-- The script of the fake remote below. -/
structure FakeConfig where
  vmAdd : Except Error (Option Vm)
  vmGet : Except Error (Option Vm)
  vmStart : Option Error
  vmShutdown : Option Error
  vmRemove : Option Error
  lockedPolls : Nat
  unlockedStatus : String
  diskAttachmentAdd : Option Error
  profiles : List VnicProfile
  links : Ref → Option Entity

/-- The status that the fake disk source reports at its `n`-th fetch, counted from 0: LOCKED for
the first `lockedPolls` fetches, `unlockedStatus` afterwards. -/
def FakeConfig.diskStatus (c : FakeConfig) (n : Nat) : String :=
  if n < c.lockedPolls then DISKSTATUS_LOCKED else c.unlockedStatus

/-- A fake remote that follows a script. Its state counts the disk fetches answered so far; a
fetched disk carries the id it was asked for. -/
def fakeRemote (c : FakeConfig) : Remote Nat :=
  { vmAdd := fun s _ => (c.vmAdd, s)
    vmGet := fun s _ => (c.vmGet, s)
    vmStart := fun s _ => (c.vmStart, s)
    vmShutdown := fun s _ => (c.vmShutdown, s)
    vmRemove := fun s _ _ => (c.vmRemove, s)
    diskGet := fun s id => (.ok { id := id, status := c.diskStatus s }, s + 1)
    diskAttachmentAdd := fun s _ _ => (c.diskAttachmentAdd, s)
    vnicProfilesList := fun s => (c.profiles, s)
    followLink := fun s r => (c.links r, s)
    nicAdd := fun s _ _ => (none, s) }

def sampleVm (status : String) : Vm :=
  { id := "vm-1"
    name := "web1"
    status := status
    cluster := { id := "cl-1", href := "/clusters/cl-1" }
    template := { id := "tpl-0", href := "/templates/tpl-0" }
    cpu := { cores := 1, sockets := 1, threads := 1 }
    initialization := { authorizedSshKeys := "", nicConfigurations := none }
    diskAttachments := none }

def sampleDisk : DiskAttachmentSpec :=
  { disk_id := "disk-1"
    active := true
    bootable := true
    interface := "virtio"
    logical_name := ""
    pass_discard := false
    read_only := false
    use_scsi_reservation := false }

def sampleNic : NetworkInterfaceSpec :=
  { label := "eth0"
    network := "mgmt"
    boot_proto := "static"
    ip_address := "10.1.60.60"
    subnet_mask := "255.255.255.0"
    gateway := "10.1.60.1"
    on_boot := true }

def sampleData : ResourceData :=
  { id := ""
    name := "web1"
    cluster_id := "cl-1"
    template := "Blank"
    cores := 1
    sockets := 1
    threads := 1
    authorized_ssh_key := ""
    attached_disk := [sampleDisk]
    network_interface := [sampleNic]
    set_attached_disk := none
    set_network_interface := none }

/-- A script on which every request succeeds: the VM is reported with the given status, the disk
is never locked, and no vNIC profile is listed. -/
def happyConfig (status : String) : FakeConfig :=
  { vmAdd := .ok (some (sampleVm status))
    vmGet := .ok (some (sampleVm status))
    vmStart := none
    vmShutdown := none
    vmRemove := none
    lockedPolls := 0
    unlockedStatus := "ok"
    diskAttachmentAdd := none
    profiles := []
    links := fun _ => none }

/-- The log of `w2` is the log of `w1` followed by requests that all satisfy `P`. -/
def World.Extends (P : Request → Prop) (w1 w2 : World σ) : Prop :=
  ∃ new, w2.log = w1.log ++ new ∧ ∀ r ∈ new, P r


/-- The script of the fake legacy remote below. -/
structure LegacyFakeConfig where
  save : Option Error
  downAfter : Nat
  getDisk : Option Error
  addLinkObject : String × Option Error
  start : Option Error
  delete : Option Error

/-- A fake legacy remote that follows a script. Its state counts the refreshes answered so far:
the VM is saved with id "vm-1" and reported "down" from the `downAfter`-th refresh on. -/
def legacyFakeRemote (c : LegacyFakeConfig) : LegacyRemote Nat :=
  { save := fun s vm =>
      match c.save with
      | some e => (.error e, s)
      | none =>
        (.ok { vm with id := "vm-1", status := if c.downAfter = 0 then "down" else "image_locked" },
          s)
    update := fun s vm =>
      (some { vm with status := if c.downAfter ≤ s + 1 then "down" else "image_locked" }, s + 1)
    getDisk := fun s id =>
      match c.getDisk with
      | some e => (.error e, s)
      | none => (.ok { id := id }, s)
    addLinkObject := fun s _ _ _ => (c.addLinkObject, s)
    start := fun s _ => (c.start, s)
    delete := fun s _ => (c.delete, s) }

def legacySampleData : LegacyResourceData :=
  { id := ""
    name := "web1"
    cluster := "Default"
    template := "Blank"
    cores := 1
    sockets := 1
    threads := 1
    authorized_ssh_key := ""
    network_interface := [sampleNic]
    attached_disks := [sampleDisk]
    connInfoHost := none }

/-- The log of `w2` is the log of `w1` followed by requests that all satisfy `P`. -/
def LegacyWorld.Extends (P : LegacyRequest → Prop) (w1 w2 : LegacyWorld σ) : Prop :=
  ∃ new, w2.log = w1.log ++ new ∧ ∀ r ∈ new, P r


/-- A script on which the VM add succeeds, the disk is unlocked and the attach is rejected. -/
def rejectingConfig : FakeConfig :=
  { happyConfig "down" with diskAttachmentAdd := some (.other "attach rejected") }


/-- A legacy script on which the save succeeds, the VM is "down" after one refresh, and the disk
fetch fails. -/
def legacyNoDiskConfig : LegacyFakeConfig :=
  { save := none
    downAfter := 1
    getDisk := some (.notFound "no such disk")
    addLinkObject := ("att-1", none)
    start := none
    delete := none }


def profileA : VnicProfile :=
  { id := "pf-a", name := "mgmt", network := { id := "net-a", href := "/networks/net-a" } }

def profileB : VnicProfile :=
  { id := "pf-b", name := "mgmt", network := { id := "net-b", href := "/networks/net-b" } }

/-- The links of a platform with two datacenters: network "net-a" and cluster "cl-1" lie in
datacenter "dc-a", network "net-b" in datacenter "dc-b". -/
def twoDatacentersLinks (r : Ref) : Option Entity :=
  if r.href = "/networks/net-a" then some (.network { dataCenterId := "dc-a" })
  else if r.href = "/networks/net-b" then some (.network { dataCenterId := "dc-b" })
  else if r.href = "/clusters/cl-1" then some (.cluster { dataCenterId := "dc-a" })
  else none

/-- The network of a profile on that platform. -/
def twoDatacentersNetwork (pf : VnicProfile) : Network :=
  if pf.network.href = "/networks/net-a" then { dataCenterId := "dc-a" }
  else { dataCenterId := "dc-b" }

/-- A script with the two "mgmt" profiles, the one of the other datacenter listed first. -/
def twoDatacentersConfig : FakeConfig :=
  { happyConfig "down" with profiles := [profileB, profileA], links := twoDatacentersLinks }

/-- A script whose only "mgmt" profile lies in the other datacenter. -/
def otherDatacenterConfig : FakeConfig :=
  { happyConfig "down" with profiles := [profileB], links := twoDatacentersLinks }


/-- A script whose disk source reports LOCKED for the first two fetches. -/
def lockedTwiceConfig : FakeConfig :=
  { happyConfig "down" with lockedPolls := 2 }


def sampleAttachment : DiskAttachment :=
  buildOvirtVMDiskAttachment_attachment { id := "disk-1", status := "ok" } sampleDisk

def sampleNicConfiguration : NicConfiguration :=
  resourceOvirtVMCreate_nicConfiguration sampleNic


/-- A NIC configuration with a name and an IP that reports an address only. -/
def addressOnlyNicConfiguration : NicConfiguration :=
  { name := some "eth0"
    ip := some { address := some "10.1.60.60", netmask := none, gateway := none }
    bootProtocol := "static"
    onBoot := true }


/-- A script on which everything succeeds but the start. -/
def startFailsConfig : FakeConfig :=
  { happyConfig "down" with vmStart := some (.other "start failed") }

/-- A legacy script on which everything succeeds but the start. -/
def legacyStartFailsConfig : LegacyFakeConfig :=
  { save := none
    downAfter := 1
    getDisk := none
    addLinkObject := ("att-1", none)
    start := some (.other "start failed")
    delete := none }

/-- Legacy resource data without attached disks (`attached_disks` is optional there). -/
def legacyDisklessData : LegacyResourceData :=
  { legacySampleData with attached_disks := [] }


/-! ## Update -/

/-- The update of the `ovirt_vm` resource: `return nil`. -/
def resourceOvirtVMUpdate (_R : Remote σ) (d : ResourceData) (w : World σ) :
    Option Error × (ResourceData × World σ) :=
  (none, (d, w))

/-- The update of the legacy resource: `return nil`. -/
def resourceVMUpdate (_R : LegacyRemote σ) (d : LegacyResourceData) (w : LegacyWorld σ) :
    Outcome × (LegacyResourceData × LegacyWorld σ) :=
  (.ok, (d, w))

/-! ## The disk resource (`resource_disk.go`, over the `ovirtapi` client) -/

/-- The client calls that the disk resource sends. -/
inductive DiskRequest where
  | save (disk : LegacyDisk)
  | getDisk (id : String)
  | delete (id : String)
  deriving DecidableEq, Repr

/-- The remote platform as the disk resource reaches it. `save` answers with the disk as the
platform reports it, which overwrites the object. -/
structure DiskRemote (σ : Type) where
  save : σ → LegacyDisk → Except Error LegacyDisk × σ
  getDisk : σ → String → Except Error LegacyDisk × σ
  delete : σ → String → Option Error × σ

structure DiskWorld (σ : Type) where
  st : σ
  log : List DiskRequest

def DiskWorld.save (R : DiskRemote σ) (w : DiskWorld σ) (disk : LegacyDisk) :
    Except Error LegacyDisk × DiskWorld σ :=
  ((R.save w.st disk).1, ⟨(R.save w.st disk).2, w.log ++ [.save disk]⟩)

def DiskWorld.getDisk (R : DiskRemote σ) (w : DiskWorld σ) (id : String) :
    Except Error LegacyDisk × DiskWorld σ :=
  ((R.getDisk w.st id).1, ⟨(R.getDisk w.st id).2, w.log ++ [.getDisk id]⟩)

def DiskWorld.delete (R : DiskRemote σ) (w : DiskWorld σ) (id : String) :
    Option Error × DiskWorld σ :=
  ((R.delete w.st id).1, ⟨(R.delete w.st id).2, w.log ++ [.delete id]⟩)

/-- The `schema.ResourceData` of an `ovirt_disk` resource. -/
structure DiskResourceData where
  id : String
  name : String
  bootable : Bool
  format : String
  storage_domain_id : String
  size : Int
  shareable : Bool
  sparse : Bool
  deriving DecidableEq, Repr

/-- Go's `strconv.ParseBool`: `none` stands for the error, which comes with the value false. -/
def ParseBool (str : String) : Option Bool :=
  if str = "1" ∨ str = "t" ∨ str = "T" ∨ str = "TRUE" ∨ str = "true" ∨ str = "True" then
    some true
  else if str = "0" ∨ str = "f" ∨ str = "F" ∨ str = "FALSE" ∨ str = "false" ∨ str = "False" then
    some false
  else
    none

/-- The object that `con.NewDisk()` gives: no id yet, every field at its zero value. -/
def NewDisk : LegacyDisk :=
  { id := "" }

/-- The assignments of `resourceDiskModify` to the disk object, before `disk.Save()`. A flag that
is not desired is not written, and the field keeps the value it had. -/
def resourceDiskModify_fill (d : DiskResourceData) (disk : LegacyDisk) : LegacyDisk :=
  let disk := { disk with provisionedSize := d.size }
  let disk := { disk with format := d.format }
  let disk := { disk with name := d.name }
  let disk := { disk with storageDomains := some ([] ++ [d.storage_domain_id]) }
  let disk := if d.bootable then { disk with bootable := "false" } else disk
  let disk := if d.shareable then { disk with shareable := "true" } else disk
  if d.sparse then { disk with sparse := "true" } else disk

/-- The whole of `resourceDiskModify`: fill the object and save it. On success the object is what
the platform reports; on failure it stays as filled. -/
def resourceDiskModify (R : DiskRemote σ) (d : DiskResourceData) (disk : LegacyDisk)
    (w : DiskWorld σ) : Option Error × (LegacyDisk × DiskWorld σ) :=
  let disk := resourceDiskModify_fill d disk
  match w.save R disk with
  | (.error err, w1) => (some err, (disk, w1))
  | (.ok saved, w1) => (none, (saved, w1))

def resourceDiskCreate (R : DiskRemote σ) (d : DiskResourceData) (w : DiskWorld σ) :
    Option Error × (DiskResourceData × DiskWorld σ) :=
  match resourceDiskModify R d NewDisk w with
  | (some err, (newDisk, w1)) => (some err, (d, (w1.delete R newDisk.id).2))
  | (none, (newDisk, w1)) => (none, ({ d with id := newDisk.id }, w1))

/-- The read of the disk resource. A disk that cannot be fetched clears the id and is no error.
Indexing the first storage domain panics when the disk reports none. -/
def resourceDiskRead (R : DiskRemote σ) (d : DiskResourceData) (w : DiskWorld σ) :
    Outcome × (DiskResourceData × DiskWorld σ) :=
  match w.getDisk R d.id with
  | (.error _, w1) => (.ok, ({ d with id := "" }, w1))
  | (.ok disk, w1) =>
    let d := { d with name := disk.name }
    let bootable := (ParseBool disk.bootable).getD false
    let d := { d with bootable := bootable }
    let d := { d with size := disk.provisionedSize }
    let d := { d with format := disk.format }
    match disk.storageDomains with
    | some (sd :: _) =>
      let d := { d with storage_domain_id := sd }
      let shareable := (ParseBool disk.shareable).getD false
      let d := { d with shareable := shareable }
      let sparse := (ParseBool disk.sparse).getD false
      let d := { d with sparse := sparse }
      (.ok, (d, w1))
    | some [] => (.panic "index out of range", (d, w1))
    | none => (.panic "nil pointer dereference", (d, w1))

/-- A fake disk platform: its state is the disk last saved, to which it gives the id "disk-1",
and a fetch answers with that disk. -/
def diskFakeRemote : DiskRemote (Option LegacyDisk) :=
  { save := fun _ disk => (.ok { disk with id := "disk-1" }, some { disk with id := "disk-1" })
    getDisk := fun s _ =>
      match s with
      | some disk => (.ok disk, s)
      | none => (.error (.notFound "no such disk"), s)
    delete := fun _ _ => (none, none) }

/-- A desired disk that is bootable and sparse and not shareable. -/
def bootableDiskData : DiskResourceData :=
  { id := ""
    name := "vm_disk"
    bootable := true
    format := "cow"
    storage_domain_id := "sd-1"
    size := 23687091200
    shareable := false
    sparse := true }

/-- A script on which the VM add is answered without a VM. -/
def noVmConfig : FakeConfig :=
  { happyConfig "down" with vmAdd := .ok none }

/-- A script on which every request of create succeeds and the read-back reports NotFound. -/
def vanishedConfig : FakeConfig :=
  { happyConfig "down" with vmGet := .error (.notFound "404") }

/-! ## Delete: theorems -/

theorem Retry_none {S : Type} (n : Nat) (f : S → Option Error × S) (s : S)
    (h : (f s).1 = none) : Retry n f s = (none, (f s).2) := by
  cases n with
  | zero =>
    show f s = _
    rw [← h]
  | succ n =>
    rcases hf : f s with ⟨r, s'⟩
    rw [hf] at h
    simp only at h
    subst h
    simp only [Retry, hf]

/-- One attempt of the delete, when the fetch reports a VM: the requests it sends. -/
theorem resourceOvirtVMDelete_attempt_log (R : Remote σ) (vmId : String)
    (s : ResourceData × World σ) (vm : Vm) (hget : (R.vmGet s.2.st vmId).1 = .ok (some vm)) :
    (vm.status = VMSTATUS_DOWN →
      (resourceOvirtVMDelete_attempt R vmId s).2.2.log =
        s.2.log ++ [.vmGet vmId, .vmRemove vmId true]) ∧
    (vm.status ≠ VMSTATUS_DOWN →
      (resourceOvirtVMDelete_attempt R vmId s).2.2.log =
          s.2.log ++ [.vmGet vmId, .vmShutdown vmId] ∨
      (resourceOvirtVMDelete_attempt R vmId s).2.2.log =
          s.2.log ++ [.vmGet vmId, .vmShutdown vmId, .vmRemove vmId true]) := by
  constructor
  · intro hdown
    simp only [resourceOvirtVMDelete_attempt, World.vmGet, hget, hdown, World.vmRemove]
    simp only [ne_eq, not_true_eq_false, if_false]
    split <;> (rename_i h; simp only [Prod.mk.injEq] at h; obtain ⟨_, rfl⟩ := h; simp)
  · intro hup
    simp only [resourceOvirtVMDelete_attempt, World.vmGet, hget, World.vmRemove, World.vmShutdown]
    simp only [ne_eq, hup, not_false_eq_true, if_true]
    split
    · left; rename_i h; simp only [Prod.mk.injEq] at h; obtain ⟨_, rfl⟩ := h; simp
    · rename_i h
      simp only [Prod.mk.injEq] at h
      obtain ⟨_, rfl⟩ := h
      split <;> (right; rename_i h; simp only [Prod.mk.injEq] at h; obtain ⟨_, rfl⟩ := h; simp)

/-- One attempt of the delete succeeds when the fetch reports a VM and the shutdown and the
remove succeed. -/
theorem resourceOvirtVMDelete_attempt_ok (R : Remote σ) (vmId : String)
    (s : ResourceData × World σ) (vm : Vm) (hget : (R.vmGet s.2.st vmId).1 = .ok (some vm))
    (hshutdown : ∀ st, (R.vmShutdown st vmId).1 = none)
    (hremove : ∀ st, (R.vmRemove st vmId true).1 = none) :
    (resourceOvirtVMDelete_attempt R vmId s).1 = none ∧
    (resourceOvirtVMDelete_attempt R vmId s).2.2.log = s.2.log ++
      if vm.status = VMSTATUS_DOWN then [.vmGet vmId, .vmRemove vmId true]
      else [.vmGet vmId, .vmShutdown vmId, .vmRemove vmId true] := by
  simp only [resourceOvirtVMDelete_attempt, World.vmGet, hget, World.vmRemove, World.vmShutdown,
    hshutdown, hremove]
  by_cases hdown : vm.status = VMSTATUS_DOWN <;> simp [hdown]

/-- C2. Against a remote on which the fetch reports a VM and every shutdown and remove succeeds,
delete succeeds and the mutating requests it sends are one shutdown followed by one detach-only
remove when the fetched status is not "down", and one detach-only remove alone when it is "down".
In every attempt, on every remote: a fetched status "down" is followed by the remove alone, and
any other fetched status by the shutdown, with the remove coming after it or not at all. -/
theorem resourceOvirtVMDelete_sequence (R : Remote σ) (retries : Nat) (d : ResourceData)
    (w : World σ) :
    (∀ vm : Vm, (R.vmGet w.st d.id).1 = .ok (some vm) →
      (∀ st, (R.vmShutdown st d.id).1 = none) →
      (∀ st, (R.vmRemove st d.id true).1 = none) →
      (resourceOvirtVMDelete R retries d w).1 = none ∧
      ∃ new, (resourceOvirtVMDelete R retries d w).2.2.log = w.log ++ new ∧
        new.filter Request.isMutating =
          if vm.status = VMSTATUS_DOWN then [Request.vmRemove d.id true]
          else [Request.vmShutdown d.id, Request.vmRemove d.id true]) ∧
    (∀ (s : ResourceData × World σ) (vm : Vm), (R.vmGet s.2.st d.id).1 = .ok (some vm) →
      (vm.status = VMSTATUS_DOWN →
        (resourceOvirtVMDelete_attempt R d.id s).2.2.log =
          s.2.log ++ [.vmGet d.id, .vmRemove d.id true]) ∧
      (vm.status ≠ VMSTATUS_DOWN →
        (resourceOvirtVMDelete_attempt R d.id s).2.2.log =
            s.2.log ++ [.vmGet d.id, .vmShutdown d.id] ∨
        (resourceOvirtVMDelete_attempt R d.id s).2.2.log =
            s.2.log ++ [.vmGet d.id, .vmShutdown d.id, .vmRemove d.id true])) := by
  refine ⟨?_, fun s vm hget => resourceOvirtVMDelete_attempt_log R d.id s vm hget⟩
  intro vm hget hshutdown hremove
  have h := resourceOvirtVMDelete_attempt_ok R d.id (d, w) vm hget hshutdown hremove
  have hr : resourceOvirtVMDelete R retries d w =
      (none, (resourceOvirtVMDelete_attempt R d.id (d, w)).2) :=
    Retry_none retries _ (d, w) h.1
  rw [hr]
  refine ⟨rfl, _, h.2, ?_⟩
  by_cases hdown : vm.status = VMSTATUS_DOWN <;> simp [hdown, Request.isMutating]

/-- Witness of C2: a VM reported "up" on a remote where every request succeeds. -/
theorem resourceOvirtVMDelete_sequence_witness :
    ((fakeRemote (happyConfig "up")).vmGet 0 "vm-1").1 = .ok (some (sampleVm "up")) ∧
    (resourceOvirtVMDelete (fakeRemote (happyConfig "up")) 2
        { sampleData with id := "vm-1" } ⟨0, []⟩).1 = none ∧
    ∃ new, (resourceOvirtVMDelete (fakeRemote (happyConfig "up")) 2
        { sampleData with id := "vm-1" } ⟨0, []⟩).2.2.log = [] ++ new ∧
      new.filter Request.isMutating =
        if (sampleVm "up").status = VMSTATUS_DOWN then [Request.vmRemove "vm-1" true]
        else [Request.vmShutdown "vm-1", Request.vmRemove "vm-1" true] :=
  ⟨rfl, (resourceOvirtVMDelete_sequence (fakeRemote (happyConfig "up")) 2
    { sampleData with id := "vm-1" } ⟨0, []⟩).1 (sampleVm "up") rfl (fun _ => rfl) (fun _ => rfl)⟩

/-- C3. When the fetch reports NotFound, delete returns no error, leaves the resource data as it
was, and the fetch is the only request it sends: no shutdown and no remove. -/
theorem resourceOvirtVMDelete_notFound (R : Remote σ) (retries : Nat) (d : ResourceData)
    (w : World σ) (msg : String) (hget : (R.vmGet w.st d.id).1 = .error (.notFound msg)) :
    (resourceOvirtVMDelete R retries d w).1 = none ∧
    (resourceOvirtVMDelete R retries d w).2.1 = d ∧
    (resourceOvirtVMDelete R retries d w).2.2.log = w.log ++ [.vmGet d.id] ∧
    ∀ r ∈ (resourceOvirtVMDelete R retries d w).2.2.log.drop w.log.length,
      r.isVmShutdown = false ∧ r.isVmRemove = false := by
  have h : resourceOvirtVMDelete_attempt R d.id (d, w) =
      (none, (d, ⟨(R.vmGet w.st d.id).2, w.log ++ [.vmGet d.id]⟩)) := by
    simp only [resourceOvirtVMDelete_attempt, World.vmGet, hget]
  have hr : resourceOvirtVMDelete R retries d w =
      (none, (resourceOvirtVMDelete_attempt R d.id (d, w)).2) :=
    Retry_none retries _ (d, w) (by rw [h])
  rw [hr, h]
  refine ⟨rfl, rfl, rfl, ?_⟩
  intro r hr
  simp only [List.drop_left, List.mem_singleton] at hr
  subst hr
  exact ⟨rfl, rfl⟩

/-- Witness of C3: a remote that reports NotFound for the VM. -/
theorem resourceOvirtVMDelete_notFound_witness :
    (resourceOvirtVMDelete
      (fakeRemote { happyConfig "up" with vmGet := .error (.notFound "404") }) 2
      { sampleData with id := "vm-1" } ⟨0, []⟩).1 = none ∧
    (resourceOvirtVMDelete
      (fakeRemote { happyConfig "up" with vmGet := .error (.notFound "404") }) 2
      { sampleData with id := "vm-1" } ⟨0, []⟩).2.2.log = [.vmGet "vm-1"] :=
  have h := resourceOvirtVMDelete_notFound
    (fakeRemote { happyConfig "up" with vmGet := .error (.notFound "404") }) 2
    { sampleData with id := "vm-1" } ⟨0, []⟩ "404" rfl
  ⟨h.1, h.2.2.1⟩

/-! ## The requests that each part of create sends -/

theorem World.Extends.refl (P : Request → Prop) (w : World σ) : World.Extends P w w :=
  ⟨[], by simp, by simp⟩

theorem World.Extends.trans {P : Request → Prop} {w1 w2 w3 : World σ}
    (h12 : World.Extends P w1 w2) (h23 : World.Extends P w2 w3) : World.Extends P w1 w3 := by
  obtain ⟨n1, e1, p1⟩ := h12
  obtain ⟨n2, e2, p2⟩ := h23
  refine ⟨n1 ++ n2, by rw [e2, e1, List.append_assoc], ?_⟩
  intro r hr
  rcases List.mem_append.mp hr with h | h
  · exact p1 r h
  · exact p2 r h

theorem World.Extends.single {P : Request → Prop} {w1 w2 : World σ} (r : Request)
    (h : w2.log = w1.log ++ [r]) (hr : P r) : World.Extends P w1 w2 :=
  ⟨[r], h, by simpa using hr⟩

theorem Retry_extends {S : Type} (P : Request → Prop) (proj : S → World σ)
    (f : S → Option Error × S) (hf : ∀ s, World.Extends P (proj s) (proj (f s).2))
    (n : Nat) (s : S) : World.Extends P (proj s) (proj (Retry n f s).2) := by
  induction n generalizing s with
  | zero => exact hf s
  | succ n ih =>
    rcases h : f s with ⟨_ | e, s'⟩
    · simp only [Retry, h]
      have := hf s
      rwa [h] at this
    · simp only [Retry, h]
      have h1 := hf s
      rw [h] at h1
      exact h1.trans (ih s')

theorem buildOvirtVMDiskAttachment_fetch_extends (P : Request → Prop) (R : Remote σ)
    (diskId : String) (hget : P (.diskGet diskId)) (s : Option Disk × World σ) :
    World.Extends P s.2 (buildOvirtVMDiskAttachment_fetch R diskId s).2.2 := by
  apply World.Extends.single (.diskGet diskId) _ hget
  simp only [buildOvirtVMDiskAttachment_fetch, World.diskGet]
  rcases (R.diskGet s.2.st diskId).1 with e | disk
  · rfl
  · by_cases hl : disk.status = DISKSTATUS_LOCKED <;> simp [hl]

theorem buildOvirtVMDiskAttachment_one_extends (P : Request → Prop) (R : Remote σ)
    (retries : Nat) (vmID : String) (a : DiskAttachmentSpec)
    (hget : ∀ id, P (.diskGet id)) (hadd : ∀ v x, P (.diskAttachmentAdd v x)) (w : World σ) :
    World.Extends P w (buildOvirtVMDiskAttachment_one R retries vmID a w).2 := by
  have h := Retry_extends P (fun s : Option Disk × World σ => s.2)
    (buildOvirtVMDiskAttachment_fetch R a.disk_id)
    (buildOvirtVMDiskAttachment_fetch_extends P R a.disk_id (hget _)) retries (none, w)
  simp only at h
  rcases hr : Retry retries (buildOvirtVMDiskAttachment_fetch R a.disk_id) (none, w) with
    ⟨_ | e, _ | disk, w1⟩ <;> rw [hr] at h <;> simp only [buildOvirtVMDiskAttachment_one, hr]
  · exact h
  · exact h.trans (World.Extends.single _ rfl (hadd _ _))
  · exact h
  · exact h

theorem buildOvirtVMDiskAttachment_loop_extends (P : Request → Prop) (R : Remote σ)
    (retries : Nat) (vmID : String)
    (hget : ∀ id, P (.diskGet id)) (hadd : ∀ v x, P (.diskAttachmentAdd v x))
    (l : List DiskAttachmentSpec) (w : World σ) :
    World.Extends P w (buildOvirtVMDiskAttachment_loop R retries vmID l w).2 := by
  induction l generalizing w with
  | nil => exact World.Extends.refl P w
  | cons a rest ih =>
    have h1 := buildOvirtVMDiskAttachment_one_extends P R retries vmID a hget hadd w
    rcases hr : buildOvirtVMDiskAttachment_one R retries vmID a w with ⟨_ | e, w1⟩ <;>
      rw [hr] at h1 <;> simp only [buildOvirtVMDiskAttachment_loop, hr]
    · exact h1.trans (ih w1)
    · exact h1

/-- The loop over the attachments run on `pre ++ a :: post`, when every element of `pre` is
attached and `a` fails: it ends at `a`. -/
theorem buildOvirtVMDiskAttachment_loop_fail (R : Remote σ) (retries : Nat) (vmID : String)
    (pre post : List DiskAttachmentSpec) (a : DiskAttachmentSpec) (w w2 : World σ) (e : Error)
    (hpre : buildOvirtVMDiskAttachment_loop R retries vmID pre w = (none, w2))
    (hk : (buildOvirtVMDiskAttachment_one R retries vmID a w2).1 = some e) :
    buildOvirtVMDiskAttachment_loop R retries vmID (pre ++ a :: post) w =
      (some e, (buildOvirtVMDiskAttachment_one R retries vmID a w2).2) := by
  induction pre generalizing w with
  | nil =>
    simp only [buildOvirtVMDiskAttachment_loop, Prod.mk.injEq] at hpre
    obtain ⟨_, rfl⟩ := hpre
    rcases hr : buildOvirtVMDiskAttachment_one R retries vmID a w with ⟨r, w1⟩
    rw [hr] at hk
    simp only at hk
    subst hk
    simp only [List.nil_append, buildOvirtVMDiskAttachment_loop, hr]
  | cons b rest ih =>
    rcases hr : buildOvirtVMDiskAttachment_one R retries vmID b w with ⟨_ | e1, w1⟩
    · simp only [buildOvirtVMDiskAttachment_loop, hr] at hpre
      simp only [List.cons_append, buildOvirtVMDiskAttachment_loop, hr]
      exact ih w1 hpre
    · simp only [buildOvirtVMDiskAttachment_loop, hr, Prod.mk.injEq] at hpre
      exact absurd hpre.1 (by simp)

theorem resourceVMCreate_waitDown_extends (P : LegacyRequest → Prop) (R : LegacyRemote σ)
    (hupdate : ∀ id, P (.update id)) (fuel : Nat) (newVM vm2 : LegacyVM) (w w2 : LegacyWorld σ)
    (h : resourceVMCreate_waitDown R fuel newVM w = some (vm2, w2)) :
    LegacyWorld.Extends P w w2 := by
  induction fuel generalizing newVM w with
  | zero =>
    by_cases hs : newVM.status = "down" <;> simp [resourceVMCreate_waitDown, hs] at h
    obtain ⟨_, rfl⟩ := h
    exact ⟨[], by simp, by simp⟩
  | succ fuel ih =>
    by_cases hs : newVM.status = "down"
    · simp [resourceVMCreate_waitDown, hs] at h
      obtain ⟨_, rfl⟩ := h
      exact ⟨[], by simp, by simp⟩
    · simp only [resourceVMCreate_waitDown, ne_eq, hs, not_false_eq_true, if_true] at h
      obtain ⟨new, e, p⟩ := ih _ _ h
      refine ⟨.update newVM.id :: new, by rw [e]; simp [LegacyWorld.update], ?_⟩
      intro r hr
      rcases List.mem_cons.mp hr with rfl | hr
      · exact hupdate _
      · exact p r hr

/-- The disk-attachment step of `resourceOvirtVMCreate`: when attachments `pre` are attached and
the next one, `a`, fails with `e`, create returns `e` with the id of the new VM set, and after the
VM add it sends only what the attachments up to `a` send: no remove request. -/
theorem resourceOvirtVMCreate_attach_fail (R : Remote σ) (retries : Nat) (d : ResourceData)
    (w w2 : World σ) (newVM : Vm) (pre post : List DiskAttachmentSpec) (a : DiskAttachmentSpec)
    (e : Error)
    (hadd : (R.vmAdd w.st (resourceOvirtVMCreate_vm d)).1 = .ok (some newVM))
    (hd : d.attached_disk = pre ++ a :: post)
    (hpre : buildOvirtVMDiskAttachment_loop R retries newVM.id pre
      (w.vmAdd R (resourceOvirtVMCreate_vm d)).2 = (none, w2))
    (hk : (buildOvirtVMDiskAttachment_one R retries newVM.id a w2).1 = some e) :
    resourceOvirtVMCreate R retries d w =
      (some e, ({ d with id := newVM.id },
        (buildOvirtVMDiskAttachment_one R retries newVM.id a w2).2)) ∧
    ∃ new, (buildOvirtVMDiskAttachment_one R retries newVM.id a w2).2.log =
        w.log ++ Request.vmAdd (resourceOvirtVMCreate_vm d) :: new ∧
      ∀ r ∈ new, r.isVmRemove = false := by
  have hloop := buildOvirtVMDiskAttachment_loop_fail R retries newVM.id pre post a _ w2 e hpre hk
  constructor
  · simp only [resourceOvirtVMCreate, World.vmAdd, hadd, buildOvirtVMDiskAttachment, hd]
    simp only [World.vmAdd] at hloop
    rw [hloop]
  · have h1 := buildOvirtVMDiskAttachment_loop_extends (fun r => r.isVmRemove = false) R retries
      newVM.id (fun _ => rfl) (fun _ _ => rfl) (pre ++ a :: post)
      (w.vmAdd R (resourceOvirtVMCreate_vm d)).2
    rw [hloop] at h1
    obtain ⟨new, e1, p1⟩ := h1
    exact ⟨new, by rw [e1]; simp [World.vmAdd], p1⟩

/-- The legacy create when the disk fetch of the first attachment fails with `e`: it returns `e`,
and what it has sent is the save, the refreshes of the wait and the disk fetch: no delete. -/
theorem resourceVMCreate_getDisk_fail (R : LegacyRemote σ) (fuel : Nat) (d : LegacyResourceData)
    (w w2 : LegacyWorld σ) (newVM vm2 : LegacyVM) (a : DiskAttachmentSpec)
    (post : List DiskAttachmentSpec) (e : Error)
    (hsave : (R.save w.st (resourceVMCreate_vm d)).1 = .ok newVM)
    (hwait : resourceVMCreate_waitDown R fuel newVM (w.save R (resourceVMCreate_vm d)).2 =
      some (vm2, w2))
    (hd : d.attached_disks = a :: post)
    (hget : (R.getDisk w2.st a.disk_id).1 = .error e) :
    resourceVMCreate R fuel d w = some (.error e,
      ({ resourceVMCreate_setConnInfo d with id := newVM.id },
        ⟨(R.getDisk w2.st a.disk_id).2, w2.log ++ [.getDisk a.disk_id]⟩)) ∧
    ∃ new, w2.log ++ [LegacyRequest.getDisk a.disk_id] = w.log ++ new ∧
      ∀ r ∈ new, r.isDelete = false := by
  have hvm : resourceVMCreate_vm (resourceVMCreate_setConnInfo d) = resourceVMCreate_vm d := rfl
  have hw := resourceVMCreate_waitDown_extends (fun r => r.isDelete = false) R (fun _ => rfl)
    fuel newVM vm2 _ w2 hwait
  simp only [LegacyWorld.save] at hwait hw
  refine ⟨?_, ?_⟩
  · have hd2 : (resourceVMCreate_setConnInfo d).attached_disks = a :: post := hd
    simp only [resourceVMCreate, hvm, LegacyWorld.save, hsave, hwait, hd2,
      resourceVMCreate_attachLoop, resourceVMCreate_attachOne, LegacyWorld.getDisk, hget]
  · obtain ⟨new, e1, p1⟩ := hw
    refine ⟨.save (resourceVMCreate_vm d) :: (new ++ [.getDisk a.disk_id]), ?_, ?_⟩
    · simp only at e1
      rw [e1]
      simp
    · intro r hr
      simp only [List.mem_cons, List.mem_append, List.mem_singleton, List.not_mem_nil,
        or_false] at hr
      rcases hr with rfl | hr | rfl
      · rfl
      · exact p1 r hr
      · rfl

/-- C1, as the code has it. In `resourceOvirtVMCreate`, when the VM add succeeds, the attachments
`pre` are attached and the next attachment `a` fails with `e`, create returns `e` with the id of
the new VM set, and after the VM add it sends only the requests of the attachments up to `a`: no
remove request for the VM. In the legacy `resourceVMCreate`, when the disk fetch of the first
attachment fails with `e`, create returns `e` and has sent no delete request. -/
theorem create_attach_failure_returns_error_without_rollback :
    (∀ (σ : Type) (R : Remote σ) (retries : Nat) (d : ResourceData) (w w2 : World σ) (newVM : Vm)
      (pre post : List DiskAttachmentSpec) (a : DiskAttachmentSpec) (e : Error),
      (R.vmAdd w.st (resourceOvirtVMCreate_vm d)).1 = .ok (some newVM) →
      d.attached_disk = pre ++ a :: post →
      buildOvirtVMDiskAttachment_loop R retries newVM.id pre
        (w.vmAdd R (resourceOvirtVMCreate_vm d)).2 = (none, w2) →
      (buildOvirtVMDiskAttachment_one R retries newVM.id a w2).1 = some e →
      resourceOvirtVMCreate R retries d w =
        (some e, ({ d with id := newVM.id },
          (buildOvirtVMDiskAttachment_one R retries newVM.id a w2).2)) ∧
      ∃ new, (buildOvirtVMDiskAttachment_one R retries newVM.id a w2).2.log =
          w.log ++ Request.vmAdd (resourceOvirtVMCreate_vm d) :: new ∧
        ∀ r ∈ new, r.isVmRemove = false) ∧
    (∀ (σ : Type) (R : LegacyRemote σ) (fuel : Nat) (d : LegacyResourceData)
      (w w2 : LegacyWorld σ) (newVM vm2 : LegacyVM) (a : DiskAttachmentSpec)
      (post : List DiskAttachmentSpec) (e : Error),
      (R.save w.st (resourceVMCreate_vm d)).1 = .ok newVM →
      resourceVMCreate_waitDown R fuel newVM (w.save R (resourceVMCreate_vm d)).2 =
        some (vm2, w2) →
      d.attached_disks = a :: post →
      (R.getDisk w2.st a.disk_id).1 = .error e →
      resourceVMCreate R fuel d w = some (.error e,
        ({ resourceVMCreate_setConnInfo d with id := newVM.id },
          ⟨(R.getDisk w2.st a.disk_id).2, w2.log ++ [.getDisk a.disk_id]⟩)) ∧
      ∃ new, w2.log ++ [LegacyRequest.getDisk a.disk_id] = w.log ++ new ∧
        ∀ r ∈ new, r.isDelete = false) :=
  ⟨fun _ R retries d w w2 newVM pre post a e hadd hd hpre hk =>
      resourceOvirtVMCreate_attach_fail R retries d w w2 newVM pre post a e hadd hd hpre hk,
    fun _ R fuel d w w2 newVM vm2 a post e hsave hwait hd hget =>
      resourceVMCreate_getDisk_fail R fuel d w w2 newVM vm2 a post e hsave hwait hd hget⟩

/-- Witness of C1: one attachment whose attach request is rejected, and a legacy create whose
disk fetch fails after one refresh of the wait. -/
theorem create_attach_failure_returns_error_without_rollback_witness :
    (resourceOvirtVMCreate (fakeRemote rejectingConfig) 3 sampleData ⟨0, []⟩ =
        (some (.other "attach rejected"), ({ sampleData with id := (sampleVm "down").id },
          (buildOvirtVMDiskAttachment_one (fakeRemote rejectingConfig) 3 (sampleVm "down").id
            sampleDisk ⟨0, [.vmAdd (resourceOvirtVMCreate_vm sampleData)]⟩).2)) ∧
      ∃ new, (buildOvirtVMDiskAttachment_one (fakeRemote rejectingConfig) 3 (sampleVm "down").id
            sampleDisk ⟨0, [.vmAdd (resourceOvirtVMCreate_vm sampleData)]⟩).2.log =
          [] ++ Request.vmAdd (resourceOvirtVMCreate_vm sampleData) :: new ∧
        ∀ r ∈ new, r.isVmRemove = false) ∧
    (resourceVMCreate (legacyFakeRemote legacyNoDiskConfig) 5 legacySampleData ⟨0, []⟩ =
        some (.error (.notFound "no such disk"),
          ({ resourceVMCreate_setConnInfo legacySampleData with id := "vm-1" },
            ⟨1, [.save (resourceVMCreate_vm legacySampleData), .update "vm-1"] ++
              [.getDisk sampleDisk.disk_id]⟩)) ∧
      ∃ new, [.save (resourceVMCreate_vm legacySampleData), .update "vm-1"] ++
            [LegacyRequest.getDisk sampleDisk.disk_id] = [] ++ new ∧
        ∀ r ∈ new, r.isDelete = false) :=
  ⟨create_attach_failure_returns_error_without_rollback.1 Nat (fakeRemote rejectingConfig) 3
      sampleData ⟨0, []⟩ ⟨0, [.vmAdd (resourceOvirtVMCreate_vm sampleData)]⟩ (sampleVm "down")
      [] [] sampleDisk (.other "attach rejected") rfl rfl rfl (by decide),
    create_attach_failure_returns_error_without_rollback.2 Nat
      (legacyFakeRemote legacyNoDiskConfig) 5 legacySampleData ⟨0, []⟩
      ⟨1, [.save (resourceVMCreate_vm legacySampleData), .update "vm-1"]⟩
      { resourceVMCreate_vm legacySampleData with id := "vm-1", status := "image_locked" }
      { resourceVMCreate_vm legacySampleData with id := "vm-1", status := "down" }
      sampleDisk [] (.notFound "no such disk") rfl rfl rfl rfl⟩

/-- Counterexample to C1: the VM add succeeds and the only attachment is rejected. Create returns
the attach error, and the requests it has sent are the VM add, the disk fetch and the attach: no
remove request. The legacy create whose disk fetch fails sends no delete request either. -/
theorem create_attach_failure_sends_no_delete :
    ((fakeRemote rejectingConfig).vmAdd 0 (resourceOvirtVMCreate_vm sampleData)).1 =
      .ok (some (sampleVm "down")) ∧
    sampleData.attached_disk.length = 1 ∧
    (resourceOvirtVMCreate (fakeRemote rejectingConfig) 3 sampleData ⟨0, []⟩).1 =
      some (.other "attach rejected") ∧
    (resourceOvirtVMCreate (fakeRemote rejectingConfig) 3 sampleData ⟨0, []⟩).2.2.log =
      [.vmAdd (resourceOvirtVMCreate_vm sampleData), .diskGet "disk-1",
        .diskAttachmentAdd "vm-1"
          (buildOvirtVMDiskAttachment_attachment { id := "disk-1", status := "ok" } sampleDisk)] ∧
    (resourceOvirtVMCreate (fakeRemote rejectingConfig) 3 sampleData ⟨0, []⟩).2.2.log.any
      Request.isVmRemove = false ∧
    (resourceVMCreate (legacyFakeRemote legacyNoDiskConfig) 5 legacySampleData ⟨0, []⟩).map
        (fun r => (r.1, r.2.2.log)) =
      some (.error (.notFound "no such disk"),
        [.save (resourceVMCreate_vm legacySampleData), .update "vm-1", .getDisk "disk-1"]) :=
  ⟨rfl, rfl, by decide, by decide, by decide, by decide⟩

/-! ## vNIC profile resolution -/

theorem resourceOvirtVMCreate_findProfile_extends (P : Request → Prop) (R : Remote σ)
    (cluster : Ref) (network : String) (hfollow : ∀ r, P (.followLink r))
    (profiles : List VnicProfile) (dc : String × String) (w : World σ) :
    World.Extends P w (resourceOvirtVMCreate_findProfile R cluster network profiles dc w).2 := by
  induction profiles generalizing dc w with
  | nil => exact World.Extends.refl P w
  | cons pf rest ih =>
    have h2 : World.Extends P w ((w.followLink R pf.network).2.followLink R cluster).2 :=
      (World.Extends.single (.followLink pf.network) rfl (hfollow _)).trans
        (World.Extends.single (.followLink cluster) rfl (hfollow _))
    simp only [resourceOvirtVMCreate_findProfile]
    split
    · exact h2
    · exact h2.trans (ih _ _)

/-- When every profile's network link resolves to its network and the cluster link resolves to
the cluster, the loop over the profiles yields the id of the first profile whose network lies in
the cluster's datacenter and whose name is the requested one, and the empty id when there is
none. -/
theorem resourceOvirtVMCreate_findProfile_resolved (R : Remote σ) (cluster : Ref)
    (network : String) (c : Cluster) (net : VnicProfile → Network)
    (hcl : ∀ st, (R.followLink st cluster).1 = some (.cluster c))
    (profiles : List VnicProfile)
    (hnet : ∀ pf ∈ profiles, ∀ st, (R.followLink st pf.network).1 = some (.network (net pf)))
    (dc : String × String) (w : World σ) :
    (resourceOvirtVMCreate_findProfile R cluster network profiles dc w).1 =
      ((profiles.find? (fun pf =>
        decide ((net pf).dataCenterId = c.dataCenterId ∧ pf.name = network))).map
          (fun pf => pf.id)).getD "" := by
  induction profiles generalizing dc w with
  | nil => rfl
  | cons pf rest ih =>
    have h1 := hnet pf (List.mem_cons_self _ _)
    have hrest : ∀ q ∈ rest, ∀ st, (R.followLink st q.network).1 = some (.network (net q)) :=
      fun q hq => hnet q (List.mem_cons_of_mem _ hq)
    simp only [resourceOvirtVMCreate_findProfile, World.followLink, h1, hcl]
    by_cases hm : (net pf).dataCenterId = c.dataCenterId ∧ pf.name = network
    · simp [hm, List.find?_cons]
    · rw [if_neg hm, ih hrest]
      simp [hm, List.find?_cons]

/-- One iteration of the loop over the network interfaces, on any remote: the profile list, then
requests that change nothing, then one NIC add that carries the id the profile loop yields. -/
theorem resourceOvirtVMCreate_nicStep_log (R : Remote σ) (newVM : Vm) (i : Nat)
    (n : NetworkInterfaceSpec) (w : World σ) :
    ∃ mid, (resourceOvirtVMCreate_nicStep R newVM i n w).log =
        w.log ++ Request.vnicProfilesList :: mid ++
          [Request.nicAdd newVM.id (resourceOvirtVMCreate_nic i
            (resourceOvirtVMCreate_findProfile R newVM.cluster n.network
              (R.vnicProfilesList w.st).1 ("", "") (w.vnicProfilesList R).2).1)] ∧
      ∀ r ∈ mid, r.isMutating = false := by
  obtain ⟨mid, e, p⟩ := resourceOvirtVMCreate_findProfile_extends
    (fun r => r.isMutating = false) R newVM.cluster n.network (fun _ => rfl)
    (R.vnicProfilesList w.st).1 ("", "") (w.vnicProfilesList R).2
  refine ⟨mid, ?_, p⟩
  simp only [resourceOvirtVMCreate_nicStep, World.nicAdd]
  have e2 : (resourceOvirtVMCreate_findProfile R newVM.cluster n.network
      (w.vnicProfilesList R).1 ("", "") (w.vnicProfilesList R).2).2.log =
      w.log ++ Request.vnicProfilesList :: mid := by
    have : (w.vnicProfilesList R).1 = (R.vnicProfilesList w.st).1 := rfl
    rw [this, e]
    simp [World.vnicProfilesList]
  rw [e2]
  rfl

/-- C5, as the code has it. When the links resolve and no listed profile has both the requested
name and a network in the cluster's datacenter, the profile loop yields the empty id and the NIC
add request is sent all the same, carrying the empty profile id; the step has no error to
return. -/
theorem vnic_profile_unresolved_binds_empty (R : Remote σ) (newVM : Vm) (i : Nat)
    (n : NetworkInterfaceSpec) (w : World σ) (c : Cluster) (net : VnicProfile → Network)
    (hcl : ∀ st, (R.followLink st newVM.cluster).1 = some (.cluster c))
    (hnet : ∀ pf ∈ (R.vnicProfilesList w.st).1, ∀ st,
      (R.followLink st pf.network).1 = some (.network (net pf)))
    (hno : ∀ pf ∈ (R.vnicProfilesList w.st).1,
      ¬ (pf.name = n.network ∧ (net pf).dataCenterId = c.dataCenterId)) :
    ∃ mid, (resourceOvirtVMCreate_nicStep R newVM i n w).log =
        w.log ++ Request.vnicProfilesList :: mid ++
          [Request.nicAdd newVM.id (resourceOvirtVMCreate_nic i "")] ∧
      ∀ r ∈ mid, r.isMutating = false := by
  obtain ⟨mid, e, p⟩ := resourceOvirtVMCreate_nicStep_log R newVM i n w
  rw [resourceOvirtVMCreate_findProfile_resolved R newVM.cluster n.network c net hcl _ hnet] at e
  refine ⟨mid, ?_, p⟩
  rw [e]
  have hnone : (R.vnicProfilesList w.st).1.find? (fun pf =>
      decide ((net pf).dataCenterId = c.dataCenterId ∧ pf.name = n.network)) = none := by
    rw [List.find?_eq_none]
    intro pf hpf
    simp only [decide_eq_true_eq]
    exact fun h => hno pf hpf ⟨h.2, h.1⟩
  rw [hnone]
  rfl

/-- Witness of C5 as amended: the only "mgmt" profile lies in the other datacenter. -/
theorem vnic_profile_unresolved_binds_empty_witness :
    ∃ mid, (resourceOvirtVMCreate_nicStep (fakeRemote otherDatacenterConfig) (sampleVm "down") 0
          sampleNic ⟨0, []⟩).log =
        [] ++ Request.vnicProfilesList :: mid ++
          [Request.nicAdd "vm-1" (resourceOvirtVMCreate_nic 0 "")] ∧
      ∀ r ∈ mid, r.isMutating = false :=
  vnic_profile_unresolved_binds_empty (fakeRemote otherDatacenterConfig) (sampleVm "down") 0
    sampleNic ⟨0, []⟩ { dataCenterId := "dc-a" } twoDatacentersNetwork (fun _ => rfl)
    (by
      intro pf hpf st
      have hpf2 : pf = profileB := by simpa [fakeRemote, otherDatacenterConfig] using hpf
      subst hpf2
      rfl)
    (by
      intro pf hpf
      have hpf2 : pf = profileB := by simpa [fakeRemote, otherDatacenterConfig] using hpf
      subst hpf2
      decide)

/-- Counterexample to C5: the only "mgmt" profile lies in the other datacenter, and create returns
no error and sends a NIC add request that carries the empty profile id. -/
theorem vnic_profile_unresolved_is_no_error :
    (otherDatacenterConfig.profiles.filter (fun pf =>
      decide (pf.name = sampleNic.network ∧
        (twoDatacentersNetwork pf).dataCenterId = "dc-a"))) = [] ∧
    (resourceOvirtVMCreate (fakeRemote otherDatacenterConfig) 3 sampleData ⟨0, []⟩).1 = none ∧
    (resourceOvirtVMCreate_nic 0 "").vnicProfileId = "" ∧
    Request.nicAdd "vm-1" (resourceOvirtVMCreate_nic 0 "") ∈
      (resourceOvirtVMCreate (fakeRemote otherDatacenterConfig) 3 sampleData ⟨0, []⟩).2.2.log :=
  ⟨by decide, by decide, rfl, by decide⟩

/-! ## Waiting out the disk lock -/

theorem buildOvirtVMDiskAttachment_fetch_fake (c : FakeConfig) (diskId : String)
    (od : Option Disk) (st : Nat) (log : List Request) :
    buildOvirtVMDiskAttachment_fetch (fakeRemote c) diskId (od, ⟨st, log⟩) =
      (if c.diskStatus st = DISKSTATUS_LOCKED then
          some (.other "disk is locked, wait for next check") else none,
        (some { id := diskId, status := c.diskStatus st },
          ⟨st + 1, log ++ [.diskGet diskId]⟩)) := by
  simp only [buildOvirtVMDiskAttachment_fetch, World.diskGet, fakeRemote]
  by_cases h : c.diskStatus st = DISKSTATUS_LOCKED <;> simp [h]

theorem FakeConfig.diskStatus_locked (c : FakeConfig) (n : Nat) (h : n < c.lockedPolls) :
    c.diskStatus n = DISKSTATUS_LOCKED := by
  simp [FakeConfig.diskStatus, h]

theorem FakeConfig.diskStatus_unlocked (c : FakeConfig) (n : Nat) (h : c.lockedPolls ≤ n) :
    c.diskStatus n = c.unlockedStatus := by
  simp [FakeConfig.diskStatus, Nat.not_lt.mpr h]

/-- The wait on the fake disk source when the lock ends within the bound: `j` locked fetches are
left, at least `j` further attempts are admitted, and the wait ends after `j + 1` fetches. -/
theorem Retry_fetch_fake_unlocks (c : FakeConfig) (diskId : String)
    (hst : c.unlockedStatus ≠ DISKSTATUS_LOCKED) (j : Nat) :
    ∀ (n st : Nat) (od : Option Disk) (log : List Request), st + j = c.lockedPolls → j ≤ n →
      Retry n (buildOvirtVMDiskAttachment_fetch (fakeRemote c) diskId) (od, ⟨st, log⟩) =
        (none, (some { id := diskId, status := c.unlockedStatus },
          ⟨st + j + 1, log ++ List.replicate (j + 1) (.diskGet diskId)⟩)) := by
  induction j with
  | zero =>
    intro n st od log hs _
    have hu : c.diskStatus st = c.unlockedStatus :=
      c.diskStatus_unlocked st (by omega)
    have hf := buildOvirtVMDiskAttachment_fetch_fake c diskId od st log
    rw [hu, if_neg hst] at hf
    rw [Retry_none n _ _ (by rw [hf]), hf]
    rfl
  | succ j ih =>
    intro n st od log hs hn
    obtain ⟨m, rfl⟩ : ∃ m, n = m + 1 := ⟨n - 1, by omega⟩
    have hl : c.diskStatus st = DISKSTATUS_LOCKED := c.diskStatus_locked st (by omega)
    have hf := buildOvirtVMDiskAttachment_fetch_fake c diskId od st log
    rw [hl, if_pos rfl] at hf
    simp only [Retry, hf]
    rw [ih m (st + 1) _ _ (by omega) (by omega)]
    have e1 : st + 1 + j + 1 = st + (j + 1) + 1 := by omega
    rw [e1, List.append_assoc]
    rfl

/-- The wait on the fake disk source when the lock outlasts the bound: every admitted attempt
fetches a locked disk, and the wait ends with the error of the last one. -/
theorem Retry_fetch_fake_locked (c : FakeConfig) (diskId : String) (n : Nat) :
    ∀ (st : Nat) (od : Option Disk) (log : List Request), st + n < c.lockedPolls →
      Retry n (buildOvirtVMDiskAttachment_fetch (fakeRemote c) diskId) (od, ⟨st, log⟩) =
        (some (.other "disk is locked, wait for next check"),
          (some { id := diskId, status := DISKSTATUS_LOCKED },
            ⟨st + n + 1, log ++ List.replicate (n + 1) (.diskGet diskId)⟩)) := by
  induction n with
  | zero =>
    intro st od log hs
    have hl : c.diskStatus st = DISKSTATUS_LOCKED := c.diskStatus_locked st (by omega)
    have hf := buildOvirtVMDiskAttachment_fetch_fake c diskId od st log
    rw [hl, if_pos rfl] at hf
    simp only [Retry, hf]
    rfl
  | succ n ih =>
    intro st od log hs
    have hl : c.diskStatus st = DISKSTATUS_LOCKED := c.diskStatus_locked st (by omega)
    have hf := buildOvirtVMDiskAttachment_fetch_fake c diskId od st log
    rw [hl, if_pos rfl] at hf
    simp only [Retry, hf]
    rw [ih (st + 1) _ _ (by omega)]
    have e1 : st + 1 + n + 1 = st + (n + 1) + 1 := by omega
    rw [e1, List.append_assoc]
    rfl

theorem buildOvirtVMDiskAttachment_loop_single (R : Remote σ) (retries : Nat) (vmID : String)
    (a : DiskAttachmentSpec) (w : World σ) :
    buildOvirtVMDiskAttachment_loop R retries vmID [a] w =
      buildOvirtVMDiskAttachment_one R retries vmID a w := by
  rcases h : buildOvirtVMDiskAttachment_one R retries vmID a w with ⟨_ | e, w1⟩ <;>
    simp only [buildOvirtVMDiskAttachment_loop, h]

/-- C6. Against the fake disk source that reports LOCKED for the first `lockedPolls` fetches and
another status afterwards, `buildOvirtVMDiskAttachment` of one attachment: when the bound admits
`lockedPolls` further attempts, fetches the disk `lockedPolls + 1` times and then sends one attach
request; when the lock outlasts the bound, returns the lock error after `retries + 1` fetches and
sends no attach request. In both cases an attach request in the log comes right after a fetch that
the source answered with a status other than LOCKED. -/
theorem buildOvirtVMDiskAttachment_waits_for_unlock (c : FakeConfig) (retries : Nat)
    (vmID : String) (d : ResourceData) (a : DiskAttachmentSpec) (hd : d.attached_disk = [a])
    (hst : c.unlockedStatus ≠ DISKSTATUS_LOCKED) :
    (c.lockedPolls ≤ retries →
      buildOvirtVMDiskAttachment (fakeRemote c) retries vmID d ⟨0, []⟩ =
        (c.diskAttachmentAdd, ⟨c.lockedPolls + 1,
          List.replicate (c.lockedPolls + 1) (.diskGet a.disk_id) ++
            [.diskAttachmentAdd vmID (buildOvirtVMDiskAttachment_attachment
              { id := a.disk_id, status := c.unlockedStatus } a)]⟩)) ∧
    (retries < c.lockedPolls →
      buildOvirtVMDiskAttachment (fakeRemote c) retries vmID d ⟨0, []⟩ =
        (some (.other "disk is locked, wait for next check"),
          ⟨retries + 1, List.replicate (retries + 1) (.diskGet a.disk_id)⟩)) ∧
    (∀ (i : Nat) (x : DiskAttachment),
      (buildOvirtVMDiskAttachment (fakeRemote c) retries vmID d ⟨0, []⟩).2.log[i]? =
        some (.diskAttachmentAdd vmID x) →
      0 < i ∧ c.diskStatus (i - 1) ≠ DISKSTATUS_LOCKED ∧
      (buildOvirtVMDiskAttachment (fakeRemote c) retries vmID d ⟨0, []⟩).2.log[i - 1]? =
        some (.diskGet a.disk_id)) := by
  have hok : c.lockedPolls ≤ retries →
      buildOvirtVMDiskAttachment (fakeRemote c) retries vmID d ⟨0, []⟩ =
        (c.diskAttachmentAdd, ⟨c.lockedPolls + 1,
          List.replicate (c.lockedPolls + 1) (.diskGet a.disk_id) ++
            [.diskAttachmentAdd vmID (buildOvirtVMDiskAttachment_attachment
              { id := a.disk_id, status := c.unlockedStatus } a)]⟩) := by
    intro hk
    have h := Retry_fetch_fake_unlocks c a.disk_id hst c.lockedPolls retries 0 none []
      (by omega) hk
    simp only [buildOvirtVMDiskAttachment, hd, buildOvirtVMDiskAttachment_loop_single,
      buildOvirtVMDiskAttachment_one, h]
    simp [World.diskAttachmentAdd, fakeRemote]
  have hlocked : retries < c.lockedPolls →
      buildOvirtVMDiskAttachment (fakeRemote c) retries vmID d ⟨0, []⟩ =
        (some (.other "disk is locked, wait for next check"),
          ⟨retries + 1, List.replicate (retries + 1) (.diskGet a.disk_id)⟩) := by
    intro hk
    have h := Retry_fetch_fake_locked c a.disk_id retries 0 none [] (by omega)
    simp only [buildOvirtVMDiskAttachment, hd, buildOvirtVMDiskAttachment_loop_single,
      buildOvirtVMDiskAttachment_one, h]
    simp
  refine ⟨hok, hlocked, ?_⟩
  intro i x hi
  by_cases hk : c.lockedPolls ≤ retries
  · rw [hok hk] at hi ⊢
    simp only at hi ⊢
    by_cases hlt : i < c.lockedPolls + 1
    · rw [List.getElem?_append_left (by simpa using hlt)] at hi
      rw [List.getElem?_replicate, if_pos hlt] at hi
      simp at hi
    · have hge : c.lockedPolls + 1 ≤ i := by omega
      rw [List.getElem?_append_right (by simpa using hge)] at hi
      have hi0 : i - (c.lockedPolls + 1) = 0 := by
        by_contra hne
        obtain ⟨m, hm⟩ : ∃ m, i - (List.replicate (c.lockedPolls + 1)
            (Request.diskGet a.disk_id)).length = m + 1 :=
          ⟨i - (c.lockedPolls + 1) - 1, by simp; omega⟩
        rw [hm] at hi
        simp at hi
      have hieq : i = c.lockedPolls + 1 := by omega
      subst hieq
      refine ⟨by omega, ?_, ?_⟩
      · rw [Nat.add_sub_cancel, c.diskStatus_unlocked _ (Nat.le_refl _)]
        exact hst
      · rw [Nat.add_sub_cancel, List.getElem?_append_left (by simp)]
        rw [List.getElem?_replicate, if_pos (by omega)]
  · rw [hlocked (by omega)] at hi
    simp only at hi
    rw [List.getElem?_replicate] at hi
    split at hi <;> simp at hi

/-- Witness of C6: two locked fetches within a bound that admits five further attempts. -/
theorem buildOvirtVMDiskAttachment_waits_for_unlock_witness :
    lockedTwiceConfig.lockedPolls ≤ 5 ∧
    buildOvirtVMDiskAttachment (fakeRemote lockedTwiceConfig) 5 "vm-1" sampleData ⟨0, []⟩ =
      (lockedTwiceConfig.diskAttachmentAdd, ⟨lockedTwiceConfig.lockedPolls + 1,
        List.replicate (lockedTwiceConfig.lockedPolls + 1) (.diskGet sampleDisk.disk_id) ++
          [.diskAttachmentAdd "vm-1" (buildOvirtVMDiskAttachment_attachment
            { id := sampleDisk.disk_id, status := lockedTwiceConfig.unlockedStatus }
            sampleDisk)]⟩) :=
  ⟨by decide, (buildOvirtVMDiskAttachment_waits_for_unlock lockedTwiceConfig 5 "vm-1" sampleData
    sampleDisk rfl (by decide)).1 (by decide)⟩

/-- A wait that ends without error has stored the fetched disk: the branch of
`buildOvirtVMDiskAttachment_one` with a nil disk is never taken. -/
theorem buildOvirtVMDiskAttachment_fetch_disk (R : Remote σ) (diskId : String) (n : Nat)
    (s : Option Disk × World σ)
    (h : (Retry n (buildOvirtVMDiskAttachment_fetch R diskId) s).1 = none) :
    ∃ disk, (Retry n (buildOvirtVMDiskAttachment_fetch R diskId) s).2.1 = some disk := by
  have hf : ∀ t : Option Disk × World σ,
      (buildOvirtVMDiskAttachment_fetch R diskId t).1 = none →
      ∃ disk, (buildOvirtVMDiskAttachment_fetch R diskId t).2.1 = some disk := by
    intro t
    simp only [buildOvirtVMDiskAttachment_fetch]
    rcases (t.2.diskGet R diskId) with ⟨e | disk, w1⟩
    · simp
    · by_cases hl : disk.status = DISKSTATUS_LOCKED <;> simp [hl]
  induction n generalizing s with
  | zero => exact hf s h
  | succ n ih =>
    rcases hs : buildOvirtVMDiskAttachment_fetch R diskId s with ⟨_ | e, s'⟩
    · have := hf s (by rw [hs])
      simpa only [Retry, hs] using this
    · simp only [Retry, hs] at h ⊢
      exact ih s' h

/-! ## Flattening: theorems -/

theorem foldl_append_singleton {α β : Type} (g : α → β) (l : List α) (init : List β) :
    l.foldl (fun acc v => acc ++ [g v]) init = init ++ l.map g := by
  induction l generalizing init with
  | nil => simp
  | cons a rest ih => simp [ih]

theorem Attrs.set_nil (k : String) (v : Value) : Attrs.set [] k v = [(k, v)] := rfl

theorem Attrs.set_cons_ne (k k2 : String) (v v2 : Value) (m : Attrs) (h : k2 ≠ k) :
    Attrs.set ((k2, v2) :: m) k v = (k2, v2) :: Attrs.set m k v := by
  simp [Attrs.set, List.filter_cons, h]

theorem Attrs.get?_cons_ne (k k2 : String) (v2 : Value) (m : Attrs) (h : k ≠ k2) :
    Attrs.get? ((k2, v2) :: m) k = Attrs.get? m k := by
  have hb : (k == k2) = false := beq_eq_false_iff_ne.mpr h
  simp [Attrs.get?, List.lookup, hb]

theorem Attrs.get?_cons_eq (k : String) (v2 : Value) (m : Attrs) :
    Attrs.get? ((k, v2) :: m) k = some v2 := by
  simp [Attrs.get?, List.lookup]

theorem Attrs.get?_nil (k : String) : Attrs.get? [] k = none := rfl

theorem flattenOvirtVMDiskAttachment_eq (configured : List DiskAttachment) :
    flattenOvirtVMDiskAttachment configured =
      List.replicate configured.length none ++
        configured.map (fun v => some (flattenOvirtVMDiskAttachment_attrs v)) :=
  foldl_append_singleton _ configured _

theorem flattenOvirtVMNetworkInterface_eq (configured : List NicConfiguration) :
    flattenOvirtVMNetworkInterface configured =
      List.replicate configured.length none ++
        configured.map (fun v => some (flattenOvirtVMNetworkInterface_attrs v)) :=
  foldl_append_singleton _ configured _

/-- C7, what the code does. Both flatten functions start from a slice of `len(configured)` nil
maps and append to it, so for `n` entities they return `2 * n` elements, the first `n` of them nil
maps. One disk attachment gives two elements, and so does one NIC configuration. -/
theorem flatten_returns_twice_as_many :
    (∀ configured : List DiskAttachment,
      (flattenOvirtVMDiskAttachment configured).length = 2 * configured.length ∧
      (flattenOvirtVMDiskAttachment configured).take configured.length =
        List.replicate configured.length none) ∧
    (∀ configured : List NicConfiguration,
      (flattenOvirtVMNetworkInterface configured).length = 2 * configured.length ∧
      (flattenOvirtVMNetworkInterface configured).take configured.length =
        List.replicate configured.length none) ∧
    flattenOvirtVMDiskAttachment [sampleAttachment] =
      [none, some (flattenOvirtVMDiskAttachment_attrs sampleAttachment)] ∧
    flattenOvirtVMNetworkInterface [sampleNicConfiguration] =
      [none, some (flattenOvirtVMNetworkInterface_attrs sampleNicConfiguration)] := by
  refine ⟨fun l => ⟨?_, ?_⟩, fun l => ⟨?_, ?_⟩, rfl, rfl⟩
  · rw [flattenOvirtVMDiskAttachment_eq]
    simp
    omega
  · rw [flattenOvirtVMDiskAttachment_eq, List.take_left' (by simp)]
  · rw [flattenOvirtVMNetworkInterface_eq]
    simp
    omega
  · rw [flattenOvirtVMNetworkInterface_eq, List.take_left' (by simp)]

/-- C8. The attachment that `buildOvirtVMDiskAttachment` sends for an element `s` of
`attached_disk`, built on a fetched disk that carries the id asked for, flattens to a slice that
holds a map whose eight fields are those of `s`. -/
theorem flatten_disk_attachment_roundtrip (s : DiskAttachmentSpec) (disk : Disk)
    (hid : disk.id = s.disk_id) :
    ∃ attrs : Attrs,
      some attrs ∈ flattenOvirtVMDiskAttachment [buildOvirtVMDiskAttachment_attachment disk s] ∧
      attrs.get? "disk_id" = some (.str s.disk_id) ∧
      attrs.get? "active" = some (.bool s.active) ∧
      attrs.get? "bootable" = some (.bool s.bootable) ∧
      attrs.get? "interface" = some (.str s.interface) ∧
      attrs.get? "logical_name" = some (.str s.logical_name) ∧
      attrs.get? "pass_discard" = some (.bool s.pass_discard) ∧
      attrs.get? "read_only" = some (.bool s.read_only) ∧
      attrs.get? "use_scsi_reservation" = some (.bool s.use_scsi_reservation) := by
  refine ⟨flattenOvirtVMDiskAttachment_attrs (buildOvirtVMDiskAttachment_attachment disk s),
    ?_, ?_⟩
  · rw [flattenOvirtVMDiskAttachment_eq]
    simp
  · simp [flattenOvirtVMDiskAttachment_attrs, buildOvirtVMDiskAttachment_attachment,
      Attrs.set_nil, Attrs.set_cons_ne, Attrs.get?_cons_ne, Attrs.get?_cons_eq, hid]

/-- Witness of C8: the sample attachment on the disk "disk-1". -/
theorem flatten_disk_attachment_roundtrip_witness :
    ∃ attrs : Attrs,
      some attrs ∈ flattenOvirtVMDiskAttachment
        [buildOvirtVMDiskAttachment_attachment { id := "disk-1", status := "ok" } sampleDisk] ∧
      attrs.get? "disk_id" = some (.str sampleDisk.disk_id) ∧
      attrs.get? "active" = some (.bool sampleDisk.active) ∧
      attrs.get? "bootable" = some (.bool sampleDisk.bootable) ∧
      attrs.get? "interface" = some (.str sampleDisk.interface) ∧
      attrs.get? "logical_name" = some (.str sampleDisk.logical_name) ∧
      attrs.get? "pass_discard" = some (.bool sampleDisk.pass_discard) ∧
      attrs.get? "read_only" = some (.bool sampleDisk.read_only) ∧
      attrs.get? "use_scsi_reservation" = some (.bool sampleDisk.use_scsi_reservation) :=
  flatten_disk_attachment_roundtrip sampleDisk { id := "disk-1", status := "ok" } rfl

/-- C9. For every NIC configuration `c` of the input, the slice that
`flattenOvirtVMNetworkInterface` returns holds a map in which `boot_proto` and `on_boot` carry the
values of `c`, `label` carries the name of `c` when it has one and is absent otherwise, and each
of `ip_address`, `subnet_mask` and `gateway` carries what the IP of `c` reports for it and is
absent when `c` has no IP or the IP does not report it. -/
theorem flatten_network_interface_fields (configured : List NicConfiguration)
    (c : NicConfiguration) (hc : c ∈ configured) :
    ∃ attrs : Attrs,
      some attrs ∈ flattenOvirtVMNetworkInterface configured ∧
      attrs.get? "boot_proto" = some (.str c.bootProtocol) ∧
      attrs.get? "on_boot" = some (.bool c.onBoot) ∧
      attrs.get? "label" = c.name.map Value.str ∧
      attrs.get? "ip_address" = (c.ip.bind (fun ip => ip.address)).map Value.str ∧
      attrs.get? "subnet_mask" = (c.ip.bind (fun ip => ip.netmask)).map Value.str ∧
      attrs.get? "gateway" = (c.ip.bind (fun ip => ip.gateway)).map Value.str := by
  refine ⟨flattenOvirtVMNetworkInterface_attrs c, ?_, ?_⟩
  · rw [flattenOvirtVMNetworkInterface_eq]
    exact List.mem_append_right _ (List.mem_map_of_mem _ hc)
  · rcases c with ⟨_ | name, _ | ⟨_ | addr, _ | mask, _ | gw⟩, bp, ob⟩ <;>
      simp [flattenOvirtVMNetworkInterface_attrs, Attrs.set_nil, Attrs.set_cons_ne,
        Attrs.get?_cons_ne, Attrs.get?_cons_eq, Attrs.get?_nil]

/-- Witness of C9: a configuration with a name and an IP that reports an address only. -/
theorem flatten_network_interface_fields_witness :
    ∃ attrs : Attrs,
      some attrs ∈ flattenOvirtVMNetworkInterface [addressOnlyNicConfiguration] ∧
      attrs.get? "boot_proto" = some (.str addressOnlyNicConfiguration.bootProtocol) ∧
      attrs.get? "on_boot" = some (.bool addressOnlyNicConfiguration.onBoot) ∧
      attrs.get? "label" = addressOnlyNicConfiguration.name.map Value.str ∧
      attrs.get? "ip_address" =
        (addressOnlyNicConfiguration.ip.bind (fun ip => ip.address)).map Value.str ∧
      attrs.get? "subnet_mask" =
        (addressOnlyNicConfiguration.ip.bind (fun ip => ip.netmask)).map Value.str ∧
      attrs.get? "gateway" =
        (addressOnlyNicConfiguration.ip.bind (fun ip => ip.gateway)).map Value.str :=
  flatten_network_interface_fields [addressOnlyNicConfiguration] addressOnlyNicConfiguration
    (List.mem_singleton.mpr rfl)

/-! ## A failing start -/

theorem resourceOvirtVMCreate_nicStep_extends (P : Request → Prop) (R : Remote σ) (newVM : Vm)
    (hlist : P .vnicProfilesList) (hfollow : ∀ r, P (.followLink r))
    (hnic : ∀ v x, P (.nicAdd v x)) (i : Nat) (n : NetworkInterfaceSpec) (w : World σ) :
    World.Extends P w (resourceOvirtVMCreate_nicStep R newVM i n w) :=
  ((World.Extends.single .vnicProfilesList rfl hlist).trans
    (resourceOvirtVMCreate_findProfile_extends P R newVM.cluster n.network hfollow _ _ _)).trans
    (World.Extends.single (.nicAdd newVM.id _) rfl (hnic _ _))

theorem resourceOvirtVMCreate_nics_extends (P : Request → Prop) (R : Remote σ) (newVM : Vm)
    (hlist : P .vnicProfilesList) (hfollow : ∀ r, P (.followLink r))
    (hnic : ∀ v x, P (.nicAdd v x)) (l : List NetworkInterfaceSpec) (i : Nat) (w : World σ) :
    World.Extends P w (resourceOvirtVMCreate_nics R newVM i l w) := by
  induction l generalizing i w with
  | nil => exact World.Extends.refl P w
  | cons n rest ih =>
    exact (resourceOvirtVMCreate_nicStep_extends P R newVM hlist hfollow hnic i n w).trans
      (ih (i + 1) _)

/-- The start step of `resourceOvirtVMCreate`: when the VM add and the attachments succeed and
the start fails with `e`, create returns `e` at once, and among the requests it has sent there is
neither a remove nor a shutdown. -/
theorem resourceOvirtVMCreate_start_fail (R : Remote σ) (retries : Nat) (d : ResourceData)
    (w w2 : World σ) (newVM : Vm) (e : Error)
    (hadd : (R.vmAdd w.st (resourceOvirtVMCreate_vm d)).1 = .ok (some newVM))
    (hdisks : buildOvirtVMDiskAttachment R retries newVM.id { d with id := newVM.id }
      (w.vmAdd R (resourceOvirtVMCreate_vm d)).2 = (none, w2))
    (hstart : (R.vmStart (resourceOvirtVMCreate_nics R newVM 0 d.network_interface w2).st
      newVM.id).1 = some e) :
    resourceOvirtVMCreate R retries d w =
      (some e, ({ d with id := newVM.id },
        ((resourceOvirtVMCreate_nics R newVM 0 d.network_interface w2).vmStart R newVM.id).2)) ∧
    ∃ new, ((resourceOvirtVMCreate_nics R newVM 0 d.network_interface w2).vmStart R
          newVM.id).2.log = w.log ++ new ∧
      ∀ r ∈ new, r.isVmRemove = false ∧ r.isVmShutdown = false := by
  constructor
  · simp only [resourceOvirtVMCreate, World.vmAdd, hadd]
    simp only [World.vmAdd] at hdisks
    simp only [hdisks, World.vmStart, hstart]
  · have h1 : World.Extends (fun r => r.isVmRemove = false ∧ r.isVmShutdown = false) w
        (w.vmAdd R (resourceOvirtVMCreate_vm d)).2 :=
      World.Extends.single (.vmAdd _) rfl ⟨rfl, rfl⟩
    have h2 := buildOvirtVMDiskAttachment_loop_extends
      (fun r => r.isVmRemove = false ∧ r.isVmShutdown = false) R retries newVM.id
      (fun _ => ⟨rfl, rfl⟩) (fun _ _ => ⟨rfl, rfl⟩) d.attached_disk
      (w.vmAdd R (resourceOvirtVMCreate_vm d)).2
    have hdisks2 : buildOvirtVMDiskAttachment_loop R retries newVM.id d.attached_disk
        (w.vmAdd R (resourceOvirtVMCreate_vm d)).2 = (none, w2) := hdisks
    rw [hdisks2] at h2
    have h3 := resourceOvirtVMCreate_nics_extends
      (fun r => r.isVmRemove = false ∧ r.isVmShutdown = false) R newVM ⟨rfl, rfl⟩
      (fun _ => ⟨rfl, rfl⟩) (fun _ _ => ⟨rfl, rfl⟩) d.network_interface 0 w2
    have h4 : World.Extends (fun r => r.isVmRemove = false ∧ r.isVmShutdown = false)
        (resourceOvirtVMCreate_nics R newVM 0 d.network_interface w2)
        ((resourceOvirtVMCreate_nics R newVM 0 d.network_interface w2).vmStart R newVM.id).2 :=
      World.Extends.single (.vmStart _) rfl ⟨rfl, rfl⟩
    exact ((h1.trans h2).trans h3).trans h4

/-- The start step of the legacy `resourceVMCreate` without attached disks: when the save
succeeds, the VM comes "down" within the fuel and the start fails with `e`, create sends a delete
request for the VM right after the start and returns `e`. -/
theorem resourceVMCreate_start_fail (R : LegacyRemote σ) (fuel : Nat) (d : LegacyResourceData)
    (w w2 : LegacyWorld σ) (newVM vm2 : LegacyVM) (e : Error)
    (hsave : (R.save w.st (resourceVMCreate_vm d)).1 = .ok newVM)
    (hwait : resourceVMCreate_waitDown R fuel newVM (w.save R (resourceVMCreate_vm d)).2 =
      some (vm2, w2))
    (hd : d.attached_disks = [])
    (hstart : (R.start w2.st vm2.id).1 = some e) :
    resourceVMCreate R fuel d w = some (.error e,
      ({ resourceVMCreate_setConnInfo d with id := newVM.id },
        ⟨(R.delete (R.start w2.st vm2.id).2 vm2.id).2,
          w2.log ++ [.start vm2.id, .delete vm2.id]⟩)) := by
  have hvm : resourceVMCreate_vm (resourceVMCreate_setConnInfo d) = resourceVMCreate_vm d := rfl
  have hd2 : (resourceVMCreate_setConnInfo d).attached_disks = [] := hd
  simp only [LegacyWorld.save] at hwait
  simp only [resourceVMCreate, hvm, LegacyWorld.save, hsave, hwait, hd2,
    resourceVMCreate_attachLoop, LegacyWorld.start, hstart, LegacyWorld.delete]
  simp

/-- C10, as the code has it. When the VM add and all attachments succeed and the start fails with
`e`: `resourceOvirtVMCreate` returns `e` and has sent neither a remove nor a shutdown request (its
requests include no disk detach at all), while the legacy `resourceVMCreate`, run without attached
disks, sends a delete request for the VM after the failed start and then returns `e`. -/
theorem create_start_failure :
    (∀ (σ : Type) (R : Remote σ) (retries : Nat) (d : ResourceData) (w w2 : World σ)
      (newVM : Vm) (e : Error),
      (R.vmAdd w.st (resourceOvirtVMCreate_vm d)).1 = .ok (some newVM) →
      buildOvirtVMDiskAttachment R retries newVM.id { d with id := newVM.id }
        (w.vmAdd R (resourceOvirtVMCreate_vm d)).2 = (none, w2) →
      (R.vmStart (resourceOvirtVMCreate_nics R newVM 0 d.network_interface w2).st
        newVM.id).1 = some e →
      resourceOvirtVMCreate R retries d w =
        (some e, ({ d with id := newVM.id },
          ((resourceOvirtVMCreate_nics R newVM 0 d.network_interface w2).vmStart R
            newVM.id).2)) ∧
      ∃ new, ((resourceOvirtVMCreate_nics R newVM 0 d.network_interface w2).vmStart R
            newVM.id).2.log = w.log ++ new ∧
        ∀ r ∈ new, r.isVmRemove = false ∧ r.isVmShutdown = false) ∧
    (∀ (σ : Type) (R : LegacyRemote σ) (fuel : Nat) (d : LegacyResourceData)
      (w w2 : LegacyWorld σ) (newVM vm2 : LegacyVM) (e : Error),
      (R.save w.st (resourceVMCreate_vm d)).1 = .ok newVM →
      resourceVMCreate_waitDown R fuel newVM (w.save R (resourceVMCreate_vm d)).2 =
        some (vm2, w2) →
      d.attached_disks = [] →
      (R.start w2.st vm2.id).1 = some e →
      resourceVMCreate R fuel d w = some (.error e,
        ({ resourceVMCreate_setConnInfo d with id := newVM.id },
          ⟨(R.delete (R.start w2.st vm2.id).2 vm2.id).2,
            w2.log ++ [.start vm2.id, .delete vm2.id]⟩))) :=
  ⟨fun _ R retries d w w2 newVM e hadd hdisks hstart =>
      resourceOvirtVMCreate_start_fail R retries d w w2 newVM e hadd hdisks hstart,
    fun _ R fuel d w w2 newVM vm2 e hsave hwait hd hstart =>
      resourceVMCreate_start_fail R fuel d w w2 newVM vm2 e hsave hwait hd hstart⟩

/-- Witness of C10: a start that fails after one attachment and one NIC, and a legacy create
without disks whose start fails after one refresh of the wait. -/
theorem create_start_failure_witness :
    (resourceOvirtVMCreate (fakeRemote startFailsConfig) 3 sampleData ⟨0, []⟩).1 =
      some (.other "start failed") ∧
    (∃ new, ((resourceOvirtVMCreate_nics (fakeRemote startFailsConfig) (sampleVm "down") 0
          sampleData.network_interface
          ⟨1, [.vmAdd (resourceOvirtVMCreate_vm sampleData), .diskGet "disk-1",
            .diskAttachmentAdd "vm-1" sampleAttachment]⟩).vmStart (fakeRemote startFailsConfig)
          (sampleVm "down").id).2.log = [] ++ new ∧
      ∀ r ∈ new, r.isVmRemove = false ∧ r.isVmShutdown = false) ∧
    resourceVMCreate (legacyFakeRemote legacyStartFailsConfig) 5 legacyDisklessData ⟨0, []⟩ =
      some (.error (.other "start failed"),
        ({ resourceVMCreate_setConnInfo legacyDisklessData with id := "vm-1" },
          ⟨1, [.save (resourceVMCreate_vm legacyDisklessData), .update "vm-1"] ++
            [.start "vm-1", .delete "vm-1"]⟩)) :=
  have h1 := create_start_failure.1 Nat (fakeRemote startFailsConfig) 3 sampleData ⟨0, []⟩
    ⟨1, [.vmAdd (resourceOvirtVMCreate_vm sampleData), .diskGet "disk-1",
      .diskAttachmentAdd "vm-1" sampleAttachment]⟩ (sampleVm "down") (.other "start failed")
    rfl rfl rfl
  ⟨congrArg Prod.fst h1.1, h1.2,
    create_start_failure.2 Nat (legacyFakeRemote legacyStartFailsConfig) 5 legacyDisklessData
      ⟨0, []⟩ ⟨1, [.save (resourceVMCreate_vm legacyDisklessData), .update "vm-1"]⟩
      { resourceVMCreate_vm legacyDisklessData with id := "vm-1", status := "image_locked" }
      { resourceVMCreate_vm legacyDisklessData with id := "vm-1", status := "down" }
      (.other "start failed") rfl rfl rfl rfl⟩

/-- Counterexample to C10: the legacy create without attached disks, on a remote where the save
succeeds and the start fails, sends a delete request for the VM before it returns the start
error. -/
theorem legacy_create_start_failure_deletes_vm :
    legacyDisklessData.attached_disks = [] ∧
    ((legacyFakeRemote legacyStartFailsConfig).save 0
      (resourceVMCreate_vm legacyDisklessData)).1 =
        .ok { resourceVMCreate_vm legacyDisklessData with
          id := "vm-1", status := "image_locked" } ∧
    (resourceVMCreate (legacyFakeRemote legacyStartFailsConfig) 5 legacyDisklessData
        ⟨0, []⟩).map (fun r => (r.1, r.2.2.log)) =
      some (.error (.other "start failed"),
        [.save (resourceVMCreate_vm legacyDisklessData), .update "vm-1", .start "vm-1",
          .delete "vm-1"]) ∧
    ((resourceVMCreate (legacyFakeRemote legacyStartFailsConfig) 5 legacyDisklessData
        ⟨0, []⟩).map (fun r => r.2.2.log.any LegacyRequest.isDelete)) = some true :=
  ⟨rfl, rfl, by decide, by decide⟩

/-! ## Update: theorems -/

/-- C13, as the code has it. Update, of the `ovirt_vm` resource and of the legacy resource alike,
returns no error, sends no request and leaves the resource data as it was. -/
theorem update_returns_nil_without_request :
    (∀ (σ : Type) (R : Remote σ) (d : ResourceData) (w : World σ),
      resourceOvirtVMUpdate R d w = (none, (d, w))) ∧
    (∀ (σ : Type) (R : LegacyRemote σ) (d : LegacyResourceData) (w : LegacyWorld σ),
      resourceVMUpdate R d w = (.ok, (d, w))) :=
  ⟨fun _ _ _ _ => rfl, fun _ _ _ _ => rfl⟩

/-- Counterexample to C13: on the sample resource data both updates return without an error, not
with an "unsupported" error. -/
theorem update_is_not_unsupported :
    (resourceOvirtVMUpdate (fakeRemote (happyConfig "up")) sampleData ⟨0, []⟩).1 = none ∧
    (resourceVMUpdate (legacyFakeRemote legacyNoDiskConfig) legacySampleData ⟨0, []⟩).1 =
      Outcome.ok ∧
    (∀ e : Error,
      (resourceOvirtVMUpdate (fakeRemote (happyConfig "up")) sampleData ⟨0, []⟩).1 ≠ some e) :=
  ⟨rfl, rfl, fun _ h => by cases h⟩

/-! ## The disk flags -/

/-- C14, what the code does. On the object of `con.NewDisk()`, `resourceDiskModify` writes
"false" for a desired `bootable`, so for every desired state the flag parses back as false;
`shareable` and `sparse` parse back as desired. For the bootable sample disk, create followed by
read on a platform that stores what is saved leaves `bootable` false and `sparse` true. -/
theorem disk_bootable_flag_reads_back_false :
    (∀ d : DiskResourceData,
      (ParseBool (resourceDiskModify_fill d NewDisk).bootable).getD false = false) ∧
    (∀ d : DiskResourceData,
      (ParseBool (resourceDiskModify_fill d NewDisk).shareable).getD false = d.shareable) ∧
    (∀ d : DiskResourceData,
      (ParseBool (resourceDiskModify_fill d NewDisk).sparse).getD false = d.sparse) ∧
    bootableDiskData.bootable = true ∧
    (resourceDiskModify_fill bootableDiskData NewDisk).bootable = "false" ∧
    (resourceDiskRead diskFakeRemote
      (resourceDiskCreate diskFakeRemote bootableDiskData ⟨none, []⟩).2.1
      (resourceDiskCreate diskFakeRemote bootableDiskData ⟨none, []⟩).2.2).2.1.bootable = false ∧
    (resourceDiskRead diskFakeRemote
      (resourceDiskCreate diskFakeRemote bootableDiskData ⟨none, []⟩).2.1
      (resourceDiskCreate diskFakeRemote bootableDiskData ⟨none, []⟩).2.2).2.1.sparse = true := by
  refine ⟨?_, ?_, ?_, rfl, rfl, by decide, by decide⟩
  · intro d
    rcases d with ⟨id, name, _ | _, format, sd, size, _ | _, _ | _⟩ <;> rfl
  · intro d
    rcases d with ⟨id, name, _ | _, format, sd, size, _ | _, _ | _⟩ <;> rfl
  · intro d
    rcases d with ⟨id, name, _ | _, format, sd, size, _ | _, _ | _⟩ <;> rfl

/-! ## The id that create leaves set -/

theorem resourceOvirtVMRead_found (R : Remote σ) (d : ResourceData) (w : World σ) (vm : Vm)
    (hget : (R.vmGet w.st d.id).1 = .ok (some vm)) :
    (resourceOvirtVMRead R d w).1 = none ∧ (resourceOvirtVMRead R d w).2.1.id = d.id := by
  simp only [resourceOvirtVMRead, World.vmGet, hget]
  refine ⟨trivial, ?_⟩
  split <;> split <;> split <;> rfl

theorem resourceOvirtVMRead_cleared (R : Remote σ) (d : ResourceData) (w : World σ)
    (hget : (∃ msg, (R.vmGet w.st d.id).1 = .error (.notFound msg)) ∨
      (R.vmGet w.st d.id).1 = .ok none) :
    (resourceOvirtVMRead R d w).1 = none ∧ (resourceOvirtVMRead R d w).2.1.id = "" := by
  rcases hget with ⟨msg, h⟩ | h <;> simp only [resourceOvirtVMRead, World.vmGet, h] <;>
    exact ⟨trivial, trivial⟩

theorem resourceOvirtVMRead_id (R : Remote σ) (d : ResourceData) (w : World σ) :
    (resourceOvirtVMRead R d w).2.1.id = "" ∨ (resourceOvirtVMRead R d w).2.1.id = d.id := by
  rcases h : (R.vmGet w.st d.id).1 with (msg | msg) | (_ | vm)
  · exact Or.inl (resourceOvirtVMRead_cleared R d w (Or.inl ⟨msg, h⟩)).2
  · right
    simp only [resourceOvirtVMRead, World.vmGet, h]
  · exact Or.inl (resourceOvirtVMRead_cleared R d w (Or.inr h)).2
  · exact Or.inr (resourceOvirtVMRead_found R d w vm h).2

theorem resourceOvirtVMRead_extends (P : Request → Prop) (R : Remote σ)
    (hget : ∀ id, P (.vmGet id)) (hfollow : ∀ r, P (.followLink r)) (d : ResourceData)
    (w : World σ) : World.Extends P w (resourceOvirtVMRead R d w).2.2 := by
  have h1 : World.Extends P w (w.vmGet R d.id).2 := World.Extends.single (.vmGet d.id) rfl (hget _)
  rcases h : (R.vmGet w.st d.id).1 with (msg | msg) | (_ | vm)
  · simpa only [resourceOvirtVMRead, World.vmGet, h] using h1
  · simpa only [resourceOvirtVMRead, World.vmGet, h] using h1
  · simpa only [resourceOvirtVMRead, World.vmGet, h] using h1
  · have h2 : World.Extends P w ((w.vmGet R d.id).2.followLink R vm.template).2 :=
      h1.trans (World.Extends.single (.followLink vm.template) rfl (hfollow _))
    simpa only [resourceOvirtVMRead, World.vmGet, h] using h2

/-- Create up to the read-back: when the VM add, the attachments and the start succeed, create is
the read-back run on the resource data that carry the id of the new VM. -/
theorem resourceOvirtVMCreate_reaches_read (R : Remote σ) (retries : Nat) (d : ResourceData)
    (w w2 : World σ) (newVM : Vm)
    (hadd : (R.vmAdd w.st (resourceOvirtVMCreate_vm d)).1 = .ok (some newVM))
    (hdisks : buildOvirtVMDiskAttachment R retries newVM.id { d with id := newVM.id }
      (w.vmAdd R (resourceOvirtVMCreate_vm d)).2 = (none, w2))
    (hstart : (R.vmStart (resourceOvirtVMCreate_nics R newVM 0 d.network_interface w2).st
      newVM.id).1 = none) :
    resourceOvirtVMCreate R retries d w =
      resourceOvirtVMRead R { d with id := newVM.id }
        ((resourceOvirtVMCreate_nics R newVM 0 d.network_interface w2).vmStart R newVM.id).2 := by
  simp only [resourceOvirtVMCreate, World.vmAdd, hadd]
  simp only [World.vmAdd] at hdisks
  simp only [hdisks, World.vmStart, hstart]

/-- C12, as the code has it. When `resourceOvirtVMCreate` returns without error, the id it leaves
set is empty or the id of the VM of the add response. It is empty, with no error, when the add
response carries no VM, and when the read-back at the end reports NotFound or no VM; it is the id
of the new VM when the read-back finds a VM. -/
theorem create_success_id (R : Remote σ) (retries : Nat) (d : ResourceData) (w : World σ) :
    ((resourceOvirtVMCreate R retries d w).1 = none →
      (resourceOvirtVMCreate R retries d w).2.1.id = "" ∨
      ∃ newVM, (R.vmAdd w.st (resourceOvirtVMCreate_vm d)).1 = .ok (some newVM) ∧
        (resourceOvirtVMCreate R retries d w).2.1.id = newVM.id) ∧
    ((R.vmAdd w.st (resourceOvirtVMCreate_vm d)).1 = .ok none →
      (resourceOvirtVMCreate R retries d w).1 = none ∧
      (resourceOvirtVMCreate R retries d w).2.1.id = "") ∧
    (∀ (newVM : Vm) (w2 : World σ),
      (R.vmAdd w.st (resourceOvirtVMCreate_vm d)).1 = .ok (some newVM) →
      buildOvirtVMDiskAttachment R retries newVM.id { d with id := newVM.id }
        (w.vmAdd R (resourceOvirtVMCreate_vm d)).2 = (none, w2) →
      (R.vmStart (resourceOvirtVMCreate_nics R newVM 0 d.network_interface w2).st
        newVM.id).1 = none →
      ((∃ msg, (R.vmGet ((resourceOvirtVMCreate_nics R newVM 0 d.network_interface w2).vmStart R
            newVM.id).2.st newVM.id).1 = .error (.notFound msg)) ∨
          (R.vmGet ((resourceOvirtVMCreate_nics R newVM 0 d.network_interface w2).vmStart R
            newVM.id).2.st newVM.id).1 = .ok none →
        (resourceOvirtVMCreate R retries d w).1 = none ∧
        (resourceOvirtVMCreate R retries d w).2.1.id = "") ∧
      (∀ vm, (R.vmGet ((resourceOvirtVMCreate_nics R newVM 0 d.network_interface w2).vmStart R
            newVM.id).2.st newVM.id).1 = .ok (some vm) →
        (resourceOvirtVMCreate R retries d w).1 = none ∧
        (resourceOvirtVMCreate R retries d w).2.1.id = newVM.id)) := by
  refine ⟨?_, ?_, ?_⟩
  · intro hnone
    rcases hadd : (R.vmAdd w.st (resourceOvirtVMCreate_vm d)).1 with e | _ | newVM
    · simp [resourceOvirtVMCreate, World.vmAdd, hadd] at hnone
    · left
      simp only [resourceOvirtVMCreate, World.vmAdd, hadd]
    · rcases hdisks : buildOvirtVMDiskAttachment R retries newVM.id { d with id := newVM.id }
          (w.vmAdd R (resourceOvirtVMCreate_vm d)).2 with ⟨_ | e, w2⟩
      · rcases hstart : (R.vmStart (resourceOvirtVMCreate_nics R newVM 0 d.network_interface
            w2).st newVM.id).1 with _ | e
        · rw [resourceOvirtVMCreate_reaches_read R retries d w w2 newVM hadd hdisks hstart]
          rcases resourceOvirtVMRead_id R { d with id := newVM.id }
              ((resourceOvirtVMCreate_nics R newVM 0 d.network_interface w2).vmStart R
                newVM.id).2 with h | h
          · exact Or.inl h
          · exact Or.inr ⟨newVM, rfl, h⟩
        · have h := (resourceOvirtVMCreate_start_fail R retries d w w2 newVM e hadd hdisks
            hstart).1
          rw [h] at hnone
          simp at hnone
      · simp only [World.vmAdd] at hdisks
        simp [resourceOvirtVMCreate, World.vmAdd, hadd, hdisks] at hnone
  · intro hadd
    simp only [resourceOvirtVMCreate, World.vmAdd, hadd]
    exact ⟨trivial, trivial⟩
  · intro newVM w2 hadd hdisks hstart
    rw [resourceOvirtVMCreate_reaches_read R retries d w w2 newVM hadd hdisks hstart]
    exact ⟨fun h => resourceOvirtVMRead_cleared R { d with id := newVM.id } _ h,
      fun vm h => resourceOvirtVMRead_found R { d with id := newVM.id } _ vm h⟩

/-- Witness of C12 as amended: an add response without a VM leaves the id empty, and on the remote
where every request succeeds create leaves the id of the new VM. -/
theorem create_success_id_witness :
    ((resourceOvirtVMCreate (fakeRemote noVmConfig) 3 sampleData ⟨0, []⟩).1 = none ∧
      (resourceOvirtVMCreate (fakeRemote noVmConfig) 3 sampleData ⟨0, []⟩).2.1.id = "") ∧
    ((resourceOvirtVMCreate (fakeRemote (happyConfig "down")) 3 sampleData ⟨0, []⟩).1 = none ∧
      (resourceOvirtVMCreate (fakeRemote (happyConfig "down")) 3 sampleData ⟨0, []⟩).2.1.id =
        (sampleVm "down").id) :=
  ⟨(create_success_id (fakeRemote noVmConfig) 3 sampleData ⟨0, []⟩).2.1 rfl,
    ((create_success_id (fakeRemote (happyConfig "down")) 3 sampleData ⟨0, []⟩).2.2
      (sampleVm "down")
      ⟨1, [.vmAdd (resourceOvirtVMCreate_vm sampleData), .diskGet "disk-1",
        .diskAttachmentAdd "vm-1" sampleAttachment]⟩ rfl rfl rfl).2 (sampleVm "down") rfl⟩

/-- Counterexample to C12: create returns without error and leaves the id empty, once when the
add response carries no VM and once when every request succeeds and the read-back reports
NotFound. -/
theorem create_success_with_empty_id :
    (resourceOvirtVMCreate (fakeRemote noVmConfig) 3 sampleData ⟨0, []⟩).1 = none ∧
    (resourceOvirtVMCreate (fakeRemote noVmConfig) 3 sampleData ⟨0, []⟩).2.1.id = "" ∧
    (resourceOvirtVMCreate (fakeRemote vanishedConfig) 3 sampleData ⟨0, []⟩).1 = none ∧
    (resourceOvirtVMCreate (fakeRemote vanishedConfig) 3 sampleData ⟨0, []⟩).2.1.id = "" ∧
    (resourceOvirtVMCreate (fakeRemote vanishedConfig) 3 sampleData ⟨0, []⟩).2.2.log =
      [.vmAdd (resourceOvirtVMCreate_vm sampleData), .diskGet "disk-1",
        .diskAttachmentAdd "vm-1" sampleAttachment, .vnicProfilesList,
        .nicAdd "vm-1" (resourceOvirtVMCreate_nic 0 ""), .vmStart "vm-1", .vmGet "vm-1"] :=
  ⟨by decide, by decide, by decide, by decide, by decide⟩

/-! ## The order of the requests of create -/

theorem filter_isMutating_nil (l : List Request) (h : ∀ r ∈ l, r.isMutating = false) :
    l.filter Request.isMutating = [] := by
  induction l with
  | nil => rfl
  | cons a rest ih =>
    have ha := h a (List.mem_cons_self _ _)
    have hrest := ih (fun r hr => h r (List.mem_cons_of_mem _ hr))
    simp [List.filter_cons, ha, hrest]

/-- One attachment that succeeds: among the requests it sends, the attach request is the only one
that changes the platform. -/
theorem buildOvirtVMDiskAttachment_one_mutating (R : Remote σ) (retries : Nat) (vmID : String)
    (a : DiskAttachmentSpec) (w : World σ)
    (h : (buildOvirtVMDiskAttachment_one R retries vmID a w).1 = none) :
    ∃ new disk, (buildOvirtVMDiskAttachment_one R retries vmID a w).2.log = w.log ++ new ∧
      new.filter Request.isMutating =
        [Request.diskAttachmentAdd vmID (buildOvirtVMDiskAttachment_attachment disk a)] := by
  have hext := Retry_extends (fun r => r.isMutating = false)
    (fun s : Option Disk × World σ => s.2) (buildOvirtVMDiskAttachment_fetch R a.disk_id)
    (buildOvirtVMDiskAttachment_fetch_extends _ R a.disk_id rfl) retries (none, w)
  simp only at hext
  rcases hr : Retry retries (buildOvirtVMDiskAttachment_fetch R a.disk_id) (none, w) with
    ⟨_ | e, _ | disk, w1⟩
  · obtain ⟨disk, hd⟩ := buildOvirtVMDiskAttachment_fetch_disk R a.disk_id retries (none, w)
      (by rw [hr])
    rw [hr] at hd
    cases hd
  · rw [hr] at hext
    obtain ⟨fetches, e1, p1⟩ := hext
    refine ⟨fetches ++ [.diskAttachmentAdd vmID (buildOvirtVMDiskAttachment_attachment disk a)],
      disk, ?_, ?_⟩
    · simp only [buildOvirtVMDiskAttachment_one, hr, World.diskAttachmentAdd]
      simp only at e1
      rw [e1, List.append_assoc]
    · rw [List.filter_append, filter_isMutating_nil fetches p1]
      rfl
  · simp [buildOvirtVMDiskAttachment_one, hr] at h
  · simp [buildOvirtVMDiskAttachment_one, hr] at h

/-- The loop over the attachments when all of them succeed: the requests that change the platform
are one attach request per element, in the order of the list. -/
theorem buildOvirtVMDiskAttachment_loop_mutating (R : Remote σ) (retries : Nat) (vmID : String)
    (l : List DiskAttachmentSpec) (w w2 : World σ)
    (h : buildOvirtVMDiskAttachment_loop R retries vmID l w = (none, w2)) :
    ∃ new disks, w2.log = w.log ++ new ∧ disks.length = l.length ∧
      new.filter Request.isMutating =
        List.zipWith (fun disk a =>
          Request.diskAttachmentAdd vmID (buildOvirtVMDiskAttachment_attachment disk a))
          disks l := by
  induction l generalizing w with
  | nil =>
    simp only [buildOvirtVMDiskAttachment_loop, Prod.mk.injEq] at h
    obtain ⟨_, rfl⟩ := h
    exact ⟨[], [], by simp, rfl, rfl⟩
  | cons a rest ih =>
    rcases hr : buildOvirtVMDiskAttachment_one R retries vmID a w with ⟨_ | e, w1⟩
    · simp only [buildOvirtVMDiskAttachment_loop, hr] at h
      obtain ⟨new1, disk, e1, f1⟩ := buildOvirtVMDiskAttachment_one_mutating R retries vmID a w
        (by rw [hr])
      rw [hr] at e1
      simp only at e1
      obtain ⟨new2, disks, e2, hl, f2⟩ := ih w1 h
      refine ⟨new1 ++ new2, disk :: disks, ?_, by simp [hl], ?_⟩
      · rw [e2, e1, List.append_assoc]
      · rw [List.filter_append, f1, f2]
        rfl
    · simp [buildOvirtVMDiskAttachment_loop, hr] at h

theorem resourceOvirtVMCreate_nicStep_mutating (R : Remote σ) (newVM : Vm) (i : Nat)
    (n : NetworkInterfaceSpec) (w : World σ) :
    ∃ new pid, (resourceOvirtVMCreate_nicStep R newVM i n w).log = w.log ++ new ∧
      new.filter Request.isMutating =
        [Request.nicAdd newVM.id (resourceOvirtVMCreate_nic i pid)] := by
  obtain ⟨mid, e, p⟩ := resourceOvirtVMCreate_nicStep_log R newVM i n w
  refine ⟨Request.vnicProfilesList :: mid ++
      [Request.nicAdd newVM.id (resourceOvirtVMCreate_nic i
        (resourceOvirtVMCreate_findProfile R newVM.cluster n.network
          (R.vnicProfilesList w.st).1 ("", "") (w.vnicProfilesList R).2).1)],
    (resourceOvirtVMCreate_findProfile R newVM.cluster n.network
      (R.vnicProfilesList w.st).1 ("", "") (w.vnicProfilesList R).2).1, ?_, ?_⟩
  · rw [e]
    simp
  · have hm : (Request.vnicProfilesList :: mid).filter Request.isMutating = [] :=
      filter_isMutating_nil _ (by
        intro r hr
        rcases List.mem_cons.mp hr with rfl | hr
        · rfl
        · exact p r hr)
    rw [List.filter_append, hm]
    rfl

/-- The loop over the network interfaces from index `i` on: the requests that change the platform
are one NIC add per interface, in the order of the list, the NIC at index `j` built by
`resourceOvirtVMCreate_nic j`. -/
theorem resourceOvirtVMCreate_nics_mutating (R : Remote σ) (newVM : Vm)
    (l : List NetworkInterfaceSpec) (i : Nat) (w : World σ) :
    ∃ (new : List Request) (pids : List String),
      (resourceOvirtVMCreate_nics R newVM i l w).log = w.log ++ new ∧
      pids.length = l.length ∧
      new.filter Request.isMutating =
        (pids.enumFrom i).map (fun p =>
          Request.nicAdd newVM.id (resourceOvirtVMCreate_nic p.1 p.2)) := by
  induction l generalizing i w with
  | nil => exact ⟨[], [], by simp [resourceOvirtVMCreate_nics], rfl, rfl⟩
  | cons n rest ih =>
    obtain ⟨new1, pid, e1, f1⟩ := resourceOvirtVMCreate_nicStep_mutating R newVM i n w
    obtain ⟨new2, pids, e2, hl, f2⟩ := ih (i + 1) (resourceOvirtVMCreate_nicStep R newVM i n w)
    refine ⟨new1 ++ new2, pid :: pids, ?_, by simp [hl], ?_⟩
    · simp only [resourceOvirtVMCreate_nics]
      rw [e2, e1, List.append_assoc]
    · rw [List.filter_append, f1, f2]
      rfl

/-- C11. When the VM add, every attachment and the start succeed, the requests of
`resourceOvirtVMCreate` that change the platform are, in this order: the VM add, one disk attach
per element of `attached_disk`, one NIC add per element of `network_interface`, the one at index
`i` named "nic" followed by `i + 1`, and the start. So no disk attach comes after a NIC add, and
nothing that changes the platform comes after the start. -/
theorem create_request_order (R : Remote σ) (retries : Nat) (d : ResourceData) (w w2 : World σ)
    (newVM : Vm)
    (hadd : (R.vmAdd w.st (resourceOvirtVMCreate_vm d)).1 = .ok (some newVM))
    (hdisks : buildOvirtVMDiskAttachment R retries newVM.id { d with id := newVM.id }
      (w.vmAdd R (resourceOvirtVMCreate_vm d)).2 = (none, w2))
    (hstart : (R.vmStart (resourceOvirtVMCreate_nics R newVM 0 d.network_interface w2).st
      newVM.id).1 = none) :
    ∃ (new : List Request) (disks : List Disk) (pids : List String),
      (resourceOvirtVMCreate R retries d w).2.2.log = w.log ++ new ∧
      disks.length = d.attached_disk.length ∧
      pids.length = d.network_interface.length ∧
      new.filter Request.isMutating =
        Request.vmAdd (resourceOvirtVMCreate_vm d) ::
          (List.zipWith (fun disk a =>
              Request.diskAttachmentAdd newVM.id (buildOvirtVMDiskAttachment_attachment disk a))
              disks d.attached_disk ++
            (pids.enumFrom 0).map (fun p =>
              Request.nicAdd newVM.id (resourceOvirtVMCreate_nic p.1 p.2)) ++
            [Request.vmStart newVM.id]) ∧
      ∀ (i : Nat) (pid : String),
        (resourceOvirtVMCreate_nic i pid).name = "nic" ++ toString (i + 1) := by
  have hloop : buildOvirtVMDiskAttachment_loop R retries newVM.id d.attached_disk
      (w.vmAdd R (resourceOvirtVMCreate_vm d)).2 = (none, w2) := hdisks
  obtain ⟨new2, disks, e2, hl2, f2⟩ :=
    buildOvirtVMDiskAttachment_loop_mutating R retries newVM.id d.attached_disk _ w2 hloop
  obtain ⟨new3, pids, e3, hl3, f3⟩ :=
    resourceOvirtVMCreate_nics_mutating R newVM d.network_interface 0 w2
  obtain ⟨new4, e4, p4⟩ := resourceOvirtVMRead_extends (fun r => r.isMutating = false) R
    (fun _ => rfl) (fun _ => rfl) { d with id := newVM.id }
    ((resourceOvirtVMCreate_nics R newVM 0 d.network_interface w2).vmStart R newVM.id).2
  refine ⟨Request.vmAdd (resourceOvirtVMCreate_vm d) ::
      (new2 ++ new3 ++ [Request.vmStart newVM.id] ++ new4), disks, pids, ?_, hl2, hl3, ?_,
    fun _ _ => rfl⟩
  · rw [resourceOvirtVMCreate_reaches_read R retries d w w2 newVM hadd hdisks hstart, e4]
    simp only [World.vmStart]
    rw [e3, e2]
    simp [World.vmAdd]
  · have f4 := filter_isMutating_nil new4 p4
    simp only [List.filter_cons, List.filter_append, f2, f3, f4]
    simp [Request.isMutating]

/-- Witness of C11: one attachment and one interface on the remote where every request
succeeds. -/
theorem create_request_order_witness :
    ∃ (new : List Request) (disks : List Disk) (pids : List String),
      (resourceOvirtVMCreate (fakeRemote (happyConfig "down")) 3 sampleData ⟨0, []⟩).2.2.log =
        [] ++ new ∧
      disks.length = sampleData.attached_disk.length ∧
      pids.length = sampleData.network_interface.length ∧
      new.filter Request.isMutating =
        Request.vmAdd (resourceOvirtVMCreate_vm sampleData) ::
          (List.zipWith (fun disk a =>
              Request.diskAttachmentAdd (sampleVm "down").id
                (buildOvirtVMDiskAttachment_attachment disk a))
              disks sampleData.attached_disk ++
            (pids.enumFrom 0).map (fun p =>
              Request.nicAdd (sampleVm "down").id (resourceOvirtVMCreate_nic p.1 p.2)) ++
            [Request.vmStart (sampleVm "down").id]) ∧
      ∀ (i : Nat) (pid : String),
        (resourceOvirtVMCreate_nic i pid).name = "nic" ++ toString (i + 1) :=
  create_request_order (fakeRemote (happyConfig "down")) 3 sampleData ⟨0, []⟩
    ⟨1, [.vmAdd (resourceOvirtVMCreate_vm sampleData), .diskGet "disk-1",
      .diskAttachmentAdd "vm-1" sampleAttachment]⟩ (sampleVm "down") rfl rfl rfl

/-! ## The profile bound to each NIC of create -/

/-- The loop over the network interfaces on a remote that lists the same profiles at every
request and whose links resolve: the NIC add for the interface at index `j` carries the id of the
first listed profile whose network lies in the cluster's datacenter and whose name is the network
name of that interface, and the empty id when there is none. -/
theorem resourceOvirtVMCreate_nics_resolved (R : Remote σ) (newVM : Vm) (c : Cluster)
    (net : VnicProfile → Network) (profiles : List VnicProfile)
    (hlist : ∀ st, (R.vnicProfilesList st).1 = profiles)
    (hcl : ∀ st, (R.followLink st newVM.cluster).1 = some (.cluster c))
    (hnet : ∀ pf ∈ profiles, ∀ st, (R.followLink st pf.network).1 = some (.network (net pf)))
    (l : List NetworkInterfaceSpec) (i : Nat) (w : World σ) :
    ∃ new : List Request, (resourceOvirtVMCreate_nics R newVM i l w).log = w.log ++ new ∧
      new.filter Request.isMutating =
        (l.enumFrom i).map (fun p =>
          Request.nicAdd newVM.id (resourceOvirtVMCreate_nic p.1
            (((profiles.find? (fun pf =>
              decide ((net pf).dataCenterId = c.dataCenterId ∧ pf.name = p.2.network))).map
                (fun pf => pf.id)).getD ""))) := by
  induction l generalizing i w with
  | nil => exact ⟨[], by simp [resourceOvirtVMCreate_nics], rfl⟩
  | cons n rest ih =>
    obtain ⟨mid, e, p⟩ := resourceOvirtVMCreate_nicStep_log R newVM i n w
    rw [hlist w.st,
      resourceOvirtVMCreate_findProfile_resolved R newVM.cluster n.network c net hcl profiles
        hnet] at e
    obtain ⟨new2, e2, f2⟩ := ih (i + 1) (resourceOvirtVMCreate_nicStep R newVM i n w)
    refine ⟨(Request.vnicProfilesList :: mid ++
      [Request.nicAdd newVM.id (resourceOvirtVMCreate_nic i
        (((profiles.find? (fun pf =>
          decide ((net pf).dataCenterId = c.dataCenterId ∧ pf.name = n.network))).map
            (fun pf => pf.id)).getD ""))]) ++ new2, ?_, ?_⟩
    · simp only [resourceOvirtVMCreate_nics]
      rw [e2, e]
      simp
    · have hm : (Request.vnicProfilesList :: mid).filter Request.isMutating = [] :=
        filter_isMutating_nil _ (by
          intro r hr
          rcases List.mem_cons.mp hr with rfl | hr
          · rfl
          · exact p r hr)
      rw [List.filter_append, List.filter_append, hm, f2]
      rfl

/-- Create after the loop over the network interfaces: when the VM add and the attachments
succeed, what create sends after the NIC loop holds one request that changes the platform, the
start. -/
theorem resourceOvirtVMCreate_log_after_nics (R : Remote σ) (retries : Nat) (d : ResourceData)
    (w w2 : World σ) (newVM : Vm)
    (hadd : (R.vmAdd w.st (resourceOvirtVMCreate_vm d)).1 = .ok (some newVM))
    (hdisks : buildOvirtVMDiskAttachment R retries newVM.id { d with id := newVM.id }
      (w.vmAdd R (resourceOvirtVMCreate_vm d)).2 = (none, w2)) :
    ∃ post : List Request, (resourceOvirtVMCreate R retries d w).2.2.log =
        (resourceOvirtVMCreate_nics R newVM 0 d.network_interface w2).log ++ post ∧
      post.filter Request.isMutating = [Request.vmStart newVM.id] := by
  rcases hstart : (R.vmStart (resourceOvirtVMCreate_nics R newVM 0 d.network_interface
      w2).st newVM.id).1 with _ | e
  · obtain ⟨new4, e4, p4⟩ := resourceOvirtVMRead_extends (fun r => r.isMutating = false) R
      (fun _ => rfl) (fun _ => rfl) { d with id := newVM.id }
      ((resourceOvirtVMCreate_nics R newVM 0 d.network_interface w2).vmStart R newVM.id).2
    refine ⟨Request.vmStart newVM.id :: new4, ?_, ?_⟩
    · rw [resourceOvirtVMCreate_reaches_read R retries d w w2 newVM hadd hdisks hstart, e4]
      simp [World.vmStart]
    · have f4 := filter_isMutating_nil new4 p4
      simp [List.filter_cons, f4, Request.isMutating]
  · refine ⟨[Request.vmStart newVM.id], ?_, rfl⟩
    rw [(resourceOvirtVMCreate_start_fail R retries d w w2 newVM e hadd hdisks hstart).1]
    rfl

/-- C4. When the cluster link of the VM resolves to the cluster and the network link of every
listed profile resolves to its network, the NIC add request that `resourceOvirtVMCreate` sends for
an interface carries, as the id of its vNIC profile, the id of the first listed profile whose name
is the requested network name and whose network lies in the cluster's datacenter. In particular,
of two profiles named "mgmt" of which only the first-named one lies in the cluster's datacenter,
that one is bound, in either list order. In the whole of create, on a remote that lists the same
profiles at every request, the NIC add for the interface at index `j` of `network_interface`
carries the id of the first listed profile that matches the network name of that interface, the
empty id when none does, and the start is the only later request that changes the platform. -/
theorem vnic_profile_resolution (R : Remote σ) (newVM : Vm) (i : Nat)
    (n : NetworkInterfaceSpec) (w : World σ) (c : Cluster) (net : VnicProfile → Network)
    (hcl : ∀ st, (R.followLink st newVM.cluster).1 = some (.cluster c))
    (hnet : ∀ pf ∈ (R.vnicProfilesList w.st).1, ∀ st,
      (R.followLink st pf.network).1 = some (.network (net pf))) :
    (∀ pf, (R.vnicProfilesList w.st).1.find? (fun pf =>
        decide ((net pf).dataCenterId = c.dataCenterId ∧ pf.name = n.network)) = some pf →
      (pf.name = n.network ∧ (net pf).dataCenterId = c.dataCenterId) ∧
      ∃ mid, (resourceOvirtVMCreate_nicStep R newVM i n w).log =
          w.log ++ Request.vnicProfilesList :: mid ++
            [Request.nicAdd newVM.id (Nic.mk ("nic" ++ toString (i + 1))
              ("My network interface card #" ++ toString (i + 1)) pf.id)] ∧
        ∀ r ∈ mid, r.isMutating = false) ∧
    (∀ pA pB : VnicProfile, pA.name = "mgmt" → pB.name = "mgmt" → n.network = "mgmt" →
      (net pA).dataCenterId = c.dataCenterId → (net pB).dataCenterId ≠ c.dataCenterId →
      (R.vnicProfilesList w.st).1 = [pA, pB] ∨ (R.vnicProfilesList w.st).1 = [pB, pA] →
      ∃ mid, (resourceOvirtVMCreate_nicStep R newVM i n w).log =
          w.log ++ Request.vnicProfilesList :: mid ++
            [Request.nicAdd newVM.id (Nic.mk ("nic" ++ toString (i + 1))
              ("My network interface card #" ++ toString (i + 1)) pA.id)] ∧
        ∀ r ∈ mid, r.isMutating = false) ∧
    (∀ (retries : Nat) (d : ResourceData) (w0 w2 : World σ) (profiles : List VnicProfile),
      (R.vmAdd w0.st (resourceOvirtVMCreate_vm d)).1 = .ok (some newVM) →
      buildOvirtVMDiskAttachment R retries newVM.id { d with id := newVM.id }
        (w0.vmAdd R (resourceOvirtVMCreate_vm d)).2 = (none, w2) →
      (∀ st, (R.vnicProfilesList st).1 = profiles) →
      (∀ pf ∈ profiles, ∀ st, (R.followLink st pf.network).1 = some (.network (net pf))) →
      ∃ new post : List Request,
        (resourceOvirtVMCreate R retries d w0).2.2.log = w2.log ++ new ++ post ∧
        new.filter Request.isMutating =
          (d.network_interface.enumFrom 0).map (fun p =>
            Request.nicAdd newVM.id (Nic.mk ("nic" ++ toString (p.1 + 1))
              ("My network interface card #" ++ toString (p.1 + 1))
              (((profiles.find? (fun pf =>
                decide ((net pf).dataCenterId = c.dataCenterId ∧ pf.name = p.2.network))).map
                  (fun pf => pf.id)).getD ""))) ∧
        post.filter Request.isMutating = [Request.vmStart newVM.id]) := by
  obtain ⟨mid, e, p⟩ := resourceOvirtVMCreate_nicStep_log R newVM i n w
  rw [resourceOvirtVMCreate_findProfile_resolved R newVM.cluster n.network c net hcl _ hnet] at e
  refine ⟨?_, ?_, ?_⟩
  · intro pf hpf
    have hm := List.find?_some hpf
    simp only [decide_eq_true_eq] at hm
    refine ⟨⟨hm.2, hm.1⟩, mid, ?_, p⟩
    rw [e, hpf]
    rfl
  · intro pA pB hA hB hn hdA hdB hl
    refine ⟨mid, ?_, p⟩
    rw [e]
    rcases hl with hl | hl <;> rw [hl] <;>
      simp [List.find?_cons, hA, hB, hn, hdA, hdB, resourceOvirtVMCreate_nic]
  · intro retries d w0 w2 profiles hadd hdisks hlist hnet2
    obtain ⟨new, e1, f1⟩ := resourceOvirtVMCreate_nics_resolved R newVM c net profiles hlist hcl
      hnet2 d.network_interface 0 w2
    obtain ⟨post, e2, f2⟩ := resourceOvirtVMCreate_log_after_nics R retries d w0 w2 newVM hadd
      hdisks
    exact ⟨new, post, by rw [e2, e1], f1, f2⟩

/-- Witness of C4: the "mgmt" profile of the other datacenter is listed first, and the profile of
the cluster's datacenter is bound, in the NIC step and in the whole of create. -/
theorem vnic_profile_resolution_witness :
    (∃ mid, (resourceOvirtVMCreate_nicStep (fakeRemote twoDatacentersConfig) (sampleVm "down") 0
          sampleNic ⟨0, []⟩).log =
        [] ++ Request.vnicProfilesList :: mid ++
          [Request.nicAdd "vm-1" (Nic.mk ("nic" ++ toString (0 + 1))
            ("My network interface card #" ++ toString (0 + 1)) "pf-a")] ∧
      ∀ r ∈ mid, r.isMutating = false) ∧
    (∃ new post : List Request,
      (resourceOvirtVMCreate (fakeRemote twoDatacentersConfig) 3 sampleData ⟨0, []⟩).2.2.log =
        [.vmAdd (resourceOvirtVMCreate_vm sampleData), .diskGet "disk-1",
          .diskAttachmentAdd "vm-1" sampleAttachment] ++ new ++ post ∧
      new.filter Request.isMutating =
        (sampleData.network_interface.enumFrom 0).map (fun p =>
          Request.nicAdd "vm-1" (Nic.mk ("nic" ++ toString (p.1 + 1))
            ("My network interface card #" ++ toString (p.1 + 1))
            ((([profileB, profileA].find? (fun pf =>
              decide ((twoDatacentersNetwork pf).dataCenterId = "dc-a" ∧
                pf.name = p.2.network))).map (fun pf => pf.id)).getD ""))) ∧
      post.filter Request.isMutating = [Request.vmStart "vm-1"]) ∧
    Request.nicAdd "vm-1" (Nic.mk "nic1" "My network interface card #1" "pf-a") ∈
      (resourceOvirtVMCreate (fakeRemote twoDatacentersConfig) 3 sampleData ⟨0, []⟩).2.2.log :=
  have hnet : ∀ pf ∈ [profileB, profileA], ∀ st : Nat,
      ((fakeRemote twoDatacentersConfig).followLink st pf.network).1 =
        some (.network (twoDatacentersNetwork pf)) := by
    intro pf hpf st
    have hpf2 : pf = profileB ∨ pf = profileA := by simpa using hpf
    rcases hpf2 with rfl | rfl <;> rfl
  have h := vnic_profile_resolution (fakeRemote twoDatacentersConfig) (sampleVm "down") 0
    sampleNic ⟨0, []⟩ { dataCenterId := "dc-a" } twoDatacentersNetwork (fun _ => rfl) hnet
  ⟨(h.1 profileA (by decide)).2,
    h.2.2 3 sampleData ⟨0, []⟩
      ⟨1, [.vmAdd (resourceOvirtVMCreate_vm sampleData), .diskGet "disk-1",
        .diskAttachmentAdd "vm-1" sampleAttachment]⟩ [profileB, profileA] rfl rfl
      (fun _ => rfl) hnet,
    by decide⟩

end Ovirt
